import Mathlib

/-!
Verification of camcal.cc: producer/consumer frame handoff, calibration log and setup

A shallow embedding of `src/camcal.cc`.

* Machine `int` counters (`frame_count`, `frame_post_count`, `opencv_frames`,
  `ncal_frames`) are natural numbers: they start at 0 and are only incremented, and
  signed overflow is undefined behaviour in C++, so the model speaks about runs in
  which no counter reaches 2^31.
* Time stamps (`struct timespec`) and the `float` rate are exact rationals.
* The VCOS counting semaphore is its count; a blocked `vcos_semaphore_wait` is `none`.
* `findChessboardCorners` and the `%f` conversion of `fprintf` are library code and
  enter as parameters `detect` and `fmt`.
* Console output, overlay drawing and hardware buffer recycling touch none of the
  state modelled here and are left out.
* Two granularities are given. In `run` a whole callback and a whole loop iteration are
  single steps. In `ticks` the callback thread and the main thread advance one
  statement at a time, which is how the two unsynchronised threads of the program
  interleave; a single statement, the copy into `userdata.image` and its read by the
  detector included, is taken as indivisible.
-/

namespace CamCal

/-! ## Data model -/

/-- The part of `cv::Mat` the program relies on: dimensions and owned pixel bytes. -/
structure Mat where
  rows : Nat
  cols : Nat
  data : List Nat
deriving DecidableEq, Repr

/-- A default-constructed `cv::Mat`. -/
def Mat.empty : Mat := ⟨0, 0, []⟩

/-- The expression `cv::Mat(rows, cols, CV_8U, data).clone()`: a fresh matrix owning a
copy of the first `rows * cols` bytes found at `data`. -/
def Mat.clone_of (rows cols : Nat) (data : List Nat) : Mat :=
  ⟨rows, cols, data.take (rows * cols)⟩

/-- The struct `PORT_USERDATA` (the pool pointer is not modelled). -/
structure PORT_USERDATA where
  video_width : Nat
  video_height : Nat
  preview_width : Nat
  preview_height : Nat
  opencv_width : Nat
  opencv_height : Nat
  video_fps : ℚ
  image : Mat
  complete_semaphore : Nat
deriving DecidableEq

/-- A `cv::Point2f` over a type `F` of float values. -/
structure Point2f (F : Type) where
  x : F
  y : F

/-- The whole program state: `userdata`, the statics of `video_buffer_callback`
(`frame_count`, `frame_post_count`, `t1`) and the locals of the loop in `main`
(`opencv_frames`, `ncal_frames`, the text written so far to `cal_out`). -/
structure State where
  userdata : PORT_USERDATA
  frame_count : Nat
  frame_post_count : Nat
  t1 : ℚ
  opencv_frames : Nat
  ncal_frames : Nat
  cal_out : List Char
deriving DecidableEq

/-! ## The VCOS semaphore -/

/-- The call `vcos_semaphore_trywait`: succeeds (`true`) and decrements when the count is
positive, fails and leaves the count alone otherwise. -/
def vcos_semaphore_trywait (count : Nat) : Bool × Nat :=
  if 0 < count then (true, count - 1) else (false, count)

/-- The call `vcos_semaphore_post`. -/
def vcos_semaphore_post (count : Nat) : Nat := count + 1

/-- The call `vcos_semaphore_wait`: returns once the count is positive and decrements it;
`none` while it blocks. -/
def vcos_semaphore_wait (count : Nat) : Option Nat :=
  if 0 < count then some (count - 1) else none

/-! ## The producer: `video_buffer_callback` -/

/-- The function `video_buffer_callback`, run on the hardware buffer contents `data` with
`now` the reading of the monotonic clock during the call (a call reads the clock at
most once: for `t1` when `frame_count == 0`, for `t2` when the incremented
`frame_count` is a multiple of 10). -/
def video_buffer_callback (data : List Nat) (now : ℚ) (s : State) : State :=
  let t1 := if s.frame_count = 0 then now else s.t1
  let frame_count := s.frame_count + 1
  let image := Mat.clone_of s.userdata.video_height s.userdata.video_width data
  let tw := vcos_semaphore_trywait s.userdata.complete_semaphore
  let sem := if tw.1 ≠ true then vcos_semaphore_post tw.2 else tw.2
  let frame_post_count := if tw.1 ≠ true then s.frame_post_count + 1 else s.frame_post_count
  let video_fps :=
    if frame_count % 10 = 0 then
      let d := now - t1
      if d > 0 then (frame_count : ℚ) / d else (frame_count : ℚ)
    else s.userdata.video_fps
  { s with
    userdata := { s.userdata with
      image := image, complete_semaphore := sem, video_fps := video_fps }
    frame_count := frame_count
    frame_post_count := frame_post_count
    t1 := t1 }

/-! ## The consumer: the loop of `main` -/

section Consumer

variable {F : Type}

/-- The text `fprintf(cal_out, "%f %f ", p.x, p.y)` writes. -/
def fprintf_point (fmt : F → List Char) (p : Point2f F) : List Char :=
  fmt p.x ++ [' '] ++ fmt p.y ++ [' ']

/-- The `for` loop over `pointBuf` inside `if (found)`: the text it writes. -/
def fprintf_points (fmt : F → List Char) : List (Point2f F) → List Char
  | [] => []
  | p :: ps => fprintf_point fmt p ++ fprintf_points fmt ps

/-- The body of `if (vcos_semaphore_wait(...) == VCOS_SUCCESS)` from the call of
`findChessboardCorners` on, given what that call returned. -/
def detect_and_log (fmt : F → List Char) (res : Bool × List (Point2f F)) (s : State) :
    State :=
  if res.1 = true then
    { s with
      cal_out := s.cal_out ++ fprintf_points fmt res.2 ++ ['\n']
      ncal_frames := s.ncal_frames + 1 }
  else s

/-- What one wake-up of the consumer yields: the image handed to the detector and the
state at the end of the loop iteration. -/
structure Wake where
  frame : Mat
  next : State

/-- One iteration of `while (1)` in `main` that gets past `vcos_semaphore_wait`; `none`
when the wait blocks. -/
def consumer_cycle (detect : Mat → Bool × List (Point2f F)) (fmt : F → List Char)
    (s : State) : Option Wake :=
  match vcos_semaphore_wait s.userdata.complete_semaphore with
  | none => none
  | some c =>
    let s1 : State :=
      { s with
        userdata := { s.userdata with complete_semaphore := c }
        opencv_frames := s.opencv_frames + 1 }
    some ⟨s.userdata.image, detect_and_log fmt (detect s.userdata.image) s1⟩

end Consumer

/-! ## Interleavings -/

/-- A step of the system: a hardware callback, or a wake-up of the consumer. -/
inductive Event where
  | callback (data : List Nat) (now : ℚ)
  | wake

/-- The fields `main` assigns to `userdata` before the pipeline starts, with the
semaphore as `vcos_semaphore_create(..., 0)` leaves it and `image` default-constructed.
`main` leaves `video_fps` unset until the tenth callback; the model starts it at 0. -/
def main_userdata : PORT_USERDATA :=
  { video_width := 640
    video_height := 480
    preview_width := 640 / 1
    preview_height := 480 / 1
    opencv_width := 640
    opencv_height := 480
    video_fps := 0
    image := Mat.empty
    complete_semaphore := 0 }

/-- The state when `main` reaches its loop and no callback has run: the statics of the
callback are zero-initialised, the loop counters are 0 and `cal_out`, opened with
mode `"w"`, is empty. -/
def init : State :=
  { userdata := main_userdata
    frame_count := 0
    frame_post_count := 0
    t1 := 0
    opencv_frames := 0
    ncal_frames := 0
    cal_out := [] }

section Run

variable {F : Type}

/-- One step at the coarse granularity, a whole callback or a whole loop iteration;
`none` when the step is a wake-up and the wait is not enabled. -/
def step (detect : Mat → Bool × List (Point2f F)) (fmt : F → List Char)
    (s : State) : Event → Option State
  | Event.callback data now => some (video_buffer_callback data now s)
  | Event.wake => (consumer_cycle detect fmt s).map Wake.next

/-- Run an interleaving from `s`; `none` when some wake-up in it is not enabled. -/
def run (detect : Mat → Bool × List (Point2f F)) (fmt : F → List Char) :
    State → List Event → Option State
  | s, [] => some s
  | s, e :: es =>
    match step detect fmt s e with
    | none => none
    | some s1 => run detect fmt s1 es

end Run

/-- The counting invariant of the handoff: every post is a counted frame, and every
post is either still pending, taken back by a later callback, or consumed. -/
def handoff_inv (s : State) : Prop :=
  s.userdata.complete_semaphore + s.opencv_frames + s.frame_count =
      2 * s.frame_post_count ∧
    s.frame_post_count ≤ s.frame_count ∧
    s.userdata.complete_semaphore ≤ 1

section Trace

variable {F : Type}

/-- The images handed to the detector, in order, along an interleaving started in `s`
(up to the first wake-up that is not enabled). -/
def observed (detect : Mat → Bool × List (Point2f F)) (fmt : F → List Char) :
    State → List Event → List Mat
  | _, [] => []
  | s, Event.callback data now :: es =>
    observed detect fmt (video_buffer_callback data now s) es
  | s, Event.wake :: es =>
    match consumer_cycle detect fmt s with
    | none => []
    | some w => w.frame :: observed detect fmt w.next es

/-- The clock readings of the callbacks of an interleaving, in order. -/
def callback_times : List Event → List ℚ
  | [] => []
  | Event.callback _ now :: es => now :: callback_times es
  | Event.wake :: es => callback_times es

end Trace

/-- The point sets the detector returned for those of `frames` in which it found the
grid, in order. -/
def found_point_sets {F : Type} (detect : Mat → Bool × List (Point2f F))
    (frames : List Mat) : List (List (Point2f F)) :=
  (frames.filter (fun m => (detect m).1)).map (fun m => (detect m).2)

/-- The text of a file made of the given lines, each terminated by a newline. -/
def newline_terminated (lines : List (List Char)) : List Char :=
  (lines.map (fun l => l ++ ['\n'])).flatten

/-! ## Reading a log line back -/

/-- The characters that separate numbers in `calibration_data.txt`. -/
def is_blank (c : Char) : Bool := c == ' ' || c == '\n'

/-- Scanner behind `whitespace_fields`; `cur` is the field read so far. -/
def fields_from (cur : List Char) : List Char → List (List Char)
  | [] => if cur = [] then [] else [cur]
  | c :: cs =>
    if is_blank c = true then
      if cur = [] then fields_from [] cs else cur :: fields_from [] cs
    else fields_from (cur ++ [c]) cs

/-- The reading of a log line the specification refers to when it says a line parses
into numbers: its maximal runs of non-blank characters, in order. -/
def whitespace_fields (line : List Char) : List (List Char) := fields_from [] line

/-- A sample `%f` rendering on a two-valued stand-in for `float`. -/
def sample_fmt (b : Bool) : List Char :=
  if b then ['1', '.', '5', '0', '0', '0', '0', '0']
  else ['-', '2', '.', '2', '5', '0', '0', '0', '0']

/-- A sample detector: the grid is found exactly in images whose pixel sum is odd. -/
def sample_detect (m : Mat) : Bool × List (Point2f Bool) :=
  (m.data.sum % 2 == 1, [⟨true, false⟩, ⟨false, true⟩])

/-! ## The setup sequence of `main` -/

/-- The statuses of `MMAL_STATUS_T` that `main` tells apart; `failure` stands for every
other error code. -/
inductive MMAL_STATUS_T where
  | MMAL_SUCCESS
  | MMAL_ENOSYS
  | failure (code : Nat)
deriving DecidableEq

/-- The encodings `main` requests. -/
inductive MMAL_ENCODING where
  | unset
  | MMAL_ENCODING_I420
  | MMAL_ENCODING_OPAQUE
deriving DecidableEq

/-- The fields of `MMAL_ES_FORMAT_T` (with `es->video`) that `main` writes. -/
structure MMAL_ES_FORMAT_T where
  encoding : MMAL_ENCODING
  encoding_variant : MMAL_ENCODING
  width : Nat
  height : Nat
  crop_x : Nat
  crop_y : Nat
  crop_width : Nat
  crop_height : Nat
  frame_rate_num : Nat
  frame_rate_den : Nat
deriving DecidableEq

/-- Lines 158-168 of `main`: the assignments to `camera_video_port->format`. -/
def video_port_format (u : PORT_USERDATA) (format : MMAL_ES_FORMAT_T) :
    MMAL_ES_FORMAT_T :=
  { format with
    encoding := MMAL_ENCODING.MMAL_ENCODING_I420
    encoding_variant := MMAL_ENCODING.MMAL_ENCODING_I420
    width := u.video_width
    height := u.video_width
    crop_x := 0
    crop_y := 0
    crop_width := u.video_width
    crop_height := u.video_height
    frame_rate_num := 30
    frame_rate_den := 1 }

/-- Lines 184-192 of `main`: the assignments to `camera_preview_port->format`. -/
def preview_port_format (u : PORT_USERDATA) (format : MMAL_ES_FORMAT_T) :
    MMAL_ES_FORMAT_T :=
  { format with
    encoding := MMAL_ENCODING.MMAL_ENCODING_OPAQUE
    encoding_variant := MMAL_ENCODING.MMAL_ENCODING_I420
    width := u.preview_width
    height := u.preview_height
    crop_x := 0
    crop_y := 0
    crop_width := u.preview_width
    crop_height := u.preview_height }

/-- The collaborator calls of the setup part of `main`, in the order of the source; a
format commit carries the format committed, the pool creation the buffer count and
size requested. -/
inductive Call where
  | mmal_component_create_camera
  | mmal_port_parameter_set_camera_config
  | mmal_port_format_commit_video (format : MMAL_ES_FORMAT_T)
  | mmal_port_format_commit_preview (format : MMAL_ES_FORMAT_T)
  | mmal_port_pool_create (buffer_num buffer_size : Nat)
  | mmal_port_enable_video
  | mmal_component_enable_camera
  | mmal_component_create_preview
  | mmal_port_parameter_set_displayregion
  | mmal_port_parameter_set_mirror
  | mmal_connection_create
  | mmal_connection_enable
  | mmal_queue_length
  | mmal_port_parameter_set_capture
  | vcos_semaphore_create (count : Nat)
deriving DecidableEq

/-- What the collaborators answer: a status per call, for `mmal_port_pool_create`
whether the pointer returned is non-null, and the formats the two ports start with. -/
structure Collaborators where
  component_create_camera : MMAL_STATUS_T
  format_commit_video : MMAL_STATUS_T
  format_commit_preview : MMAL_STATUS_T
  pool_created : Bool
  port_enable_video : MMAL_STATUS_T
  component_enable_camera : MMAL_STATUS_T
  component_create_preview : MMAL_STATUS_T
  parameter_set_displayregion : MMAL_STATUS_T
  connection_create : MMAL_STATUS_T
  connection_enable : MMAL_STATUS_T
  video_format : MMAL_ES_FORMAT_T
  preview_format : MMAL_ES_FORMAT_T

/-- How the setup part of `main` ends: `return` with a status, a dereference of the null
pool pointer, or entry into `while (1)`. -/
inductive Outcome where
  | returned (status : Int)
  | null_pool_dereferenced
  | consumer_loop
deriving DecidableEq

/-- The setup part of `main` (lines 113-312) against collaborators `env`: the calls made,
in order, and how it ends. -/
def main_setup (env : Collaborators) : List Call × Outcome :=
  let u := main_userdata
  let t := [Call.mmal_component_create_camera]
  if env.component_create_camera ≠ MMAL_STATUS_T.MMAL_SUCCESS then
    (t, Outcome.returned (-1))
  else
  let t := t ++ [Call.mmal_port_parameter_set_camera_config,
    Call.mmal_port_format_commit_video (video_port_format u env.video_format)]
  if env.format_commit_video ≠ MMAL_STATUS_T.MMAL_SUCCESS then
    (t, Outcome.returned (-1))
  else
  let t := t ++
    [Call.mmal_port_format_commit_preview (preview_port_format u env.preview_format)]
  if env.format_commit_preview ≠ MMAL_STATUS_T.MMAL_SUCCESS then
    (t, Outcome.returned (-1))
  else
  let t := t ++ [Call.mmal_port_pool_create 1 (u.preview_width * u.preview_height * 12 / 8),
    Call.mmal_port_enable_video]
  if env.port_enable_video ≠ MMAL_STATUS_T.MMAL_SUCCESS then
    (t, Outcome.returned (-1))
  else
  let t := t ++ [Call.mmal_component_enable_camera, Call.mmal_component_create_preview]
  if env.component_create_preview ≠ MMAL_STATUS_T.MMAL_SUCCESS then
    (t, Outcome.returned (-1))
  else
  let t := t ++ [Call.mmal_port_parameter_set_displayregion]
  if env.parameter_set_displayregion ≠ MMAL_STATUS_T.MMAL_SUCCESS ∧
      env.parameter_set_displayregion ≠ MMAL_STATUS_T.MMAL_ENOSYS then
    (t, Outcome.returned (-1))
  else
  let t := t ++ [Call.mmal_port_parameter_set_mirror, Call.mmal_connection_create]
  if env.connection_create ≠ MMAL_STATUS_T.MMAL_SUCCESS then
    (t, Outcome.returned (-1))
  else
  let t := t ++ [Call.mmal_connection_enable]
  if env.connection_enable ≠ MMAL_STATUS_T.MMAL_SUCCESS then
    (t, Outcome.returned (-1))
  else
  if env.pool_created = false then
    (t, Outcome.null_pool_dereferenced)
  else
  (t ++ [Call.mmal_queue_length, Call.mmal_port_parameter_set_capture,
    Call.vcos_semaphore_create 0], Outcome.consumer_loop)

/-- Collaborators that all succeed, the ports starting from blank formats. -/
def all_succeed : Collaborators :=
  { component_create_camera := MMAL_STATUS_T.MMAL_SUCCESS
    format_commit_video := MMAL_STATUS_T.MMAL_SUCCESS
    format_commit_preview := MMAL_STATUS_T.MMAL_SUCCESS
    pool_created := true
    port_enable_video := MMAL_STATUS_T.MMAL_SUCCESS
    component_enable_camera := MMAL_STATUS_T.MMAL_SUCCESS
    component_create_preview := MMAL_STATUS_T.MMAL_SUCCESS
    parameter_set_displayregion := MMAL_STATUS_T.MMAL_SUCCESS
    connection_create := MMAL_STATUS_T.MMAL_SUCCESS
    connection_enable := MMAL_STATUS_T.MMAL_SUCCESS
    video_format := ⟨MMAL_ENCODING.unset, MMAL_ENCODING.unset, 0, 0, 0, 0, 0, 0, 0, 0⟩
    preview_format := ⟨MMAL_ENCODING.unset, MMAL_ENCODING.unset, 0, 0, 0, 0, 0, 0, 0, 0⟩ }

/-! ## The two threads, statement by statement

`video_buffer_callback` runs on the thread of the camera component while `main` runs
its loop, and nothing but the semaphore orders the two. Here each thread advances one
statement at a time, so that every interleaving of statements is a run. -/

/-- Where the callback thread stands: idle, or about to execute the given source line
of `video_buffer_callback` (holding the buffer contents until they are copied). -/
inductive ProducerPc where
  | idle
  | line50 (data : List Nat)
  | line53 (data : List Nat)
  | line56 (data : List Nat)
  | line60
  | line61
  | line62
  | line65
  | line82

/-- Where the loop of `main` stands: about to execute the given source line, holding
what `findChessboardCorners` returned once it has been called. -/
inductive ConsumerPc (F : Type) where
  | line314
  | line315
  | line340
  | line344 (res : Bool × List (Point2f F))
  | line359

/-- The memory of the program with the position of each thread. -/
structure Threads (F : Type) where
  mem : State
  producer : ProducerPc
  consumer : ConsumerPc F

/-- A scheduling decision: the hardware hands a filled buffer to the callback (only
while no callback is running: the callbacks of the port run one after the other on
the thread of the component, and the port is given a single buffer, sent back at the
end of the callback), the callback thread executes its next statement with `now` the
reading of the monotonic clock, or the main thread executes its next statement. -/
inductive Tick where
  | deliver (data : List Nat)
  | producer (now : ℚ)
  | consumer

/-- The next statement of `video_buffer_callback`: lines 50-52 (`t1`), 53
(`frame_count++`), 55-58 (the image), 60 (`vcos_semaphore_trywait`), 61
(`vcos_semaphore_post`), 62 (`frame_post_count++`), 65-80 (the rate), 82-94 (the
buffer goes back and the callback returns). `none` when no callback is running. -/
def producer_tick (now : ℚ) (m : State) : ProducerPc → Option (State × ProducerPc)
  | ProducerPc.idle => none
  | ProducerPc.line50 data =>
    some ({ m with t1 := if m.frame_count = 0 then now else m.t1 }, ProducerPc.line53 data)
  | ProducerPc.line53 data =>
    some ({ m with frame_count := m.frame_count + 1 }, ProducerPc.line56 data)
  | ProducerPc.line56 data =>
    some ({ m with userdata := { m.userdata with
      image := Mat.clone_of m.userdata.video_height m.userdata.video_width data } },
      ProducerPc.line60)
  | ProducerPc.line60 =>
    let tw := vcos_semaphore_trywait m.userdata.complete_semaphore
    some ({ m with userdata := { m.userdata with complete_semaphore := tw.2 } },
      if tw.1 ≠ true then ProducerPc.line61 else ProducerPc.line65)
  | ProducerPc.line61 =>
    some ({ m with userdata := { m.userdata with
      complete_semaphore := vcos_semaphore_post m.userdata.complete_semaphore } },
      ProducerPc.line62)
  | ProducerPc.line62 =>
    some ({ m with frame_post_count := m.frame_post_count + 1 }, ProducerPc.line65)
  | ProducerPc.line65 =>
    some ({ m with userdata := { m.userdata with
      video_fps :=
        if m.frame_count % 10 = 0 then
          if now - m.t1 > 0 then (m.frame_count : ℚ) / (now - m.t1) else (m.frame_count : ℚ)
        else m.userdata.video_fps } },
      ProducerPc.line82)
  | ProducerPc.line82 => some (m, ProducerPc.idle)

section Threads

variable {F : Type}

/-- The next statement of the loop of `main`: line 314 (`vcos_semaphore_wait`, `none`
while it blocks), 315 (`opencv_frames++`; lines 316-337 only draw), 339-343
(`findChessboardCorners` reads `userdata.image`), 344-357 (the log), 359-373 (the
overlay; back to the wait). -/
def consumer_tick (detect : Mat → Bool × List (Point2f F)) (fmt : F → List Char)
    (m : State) : ConsumerPc F → Option (State × ConsumerPc F)
  | ConsumerPc.line314 =>
    match vcos_semaphore_wait m.userdata.complete_semaphore with
    | none => none
    | some c =>
      some ({ m with userdata := { m.userdata with complete_semaphore := c } },
        ConsumerPc.line315)
  | ConsumerPc.line315 =>
    some ({ m with opencv_frames := m.opencv_frames + 1 }, ConsumerPc.line340)
  | ConsumerPc.line340 => some (m, ConsumerPc.line344 (detect m.userdata.image))
  | ConsumerPc.line344 res => some (detect_and_log fmt res m, ConsumerPc.line359)
  | ConsumerPc.line359 => some (m, ConsumerPc.line314)

/-- One scheduling decision; `none` when it is not enabled. -/
def tick (detect : Mat → Bool × List (Point2f F)) (fmt : F → List Char)
    (t : Threads F) : Tick → Option (Threads F)
  | Tick.deliver data =>
    match t.producer with
    | ProducerPc.idle => some { t with producer := ProducerPc.line50 data }
    | _ => none
  | Tick.producer now =>
    match producer_tick now t.mem t.producer with
    | none => none
    | some r => some { t with mem := r.1, producer := r.2 }
  | Tick.consumer =>
    match consumer_tick detect fmt t.mem t.consumer with
    | none => none
    | some r => some { t with mem := r.1, consumer := r.2 }

/-- Run a schedule from `t`; `none` when some decision in it is not enabled. -/
def ticks (detect : Mat → Bool × List (Point2f F)) (fmt : F → List Char) :
    Threads F → List Tick → Option (Threads F)
  | t, [] => some t
  | t, e :: es =>
    match tick detect fmt t e with
    | none => none
    | some t1 => ticks detect fmt t1 es

/-- Both threads at their start: no callback running, `main` at its first wait. -/
def start : Threads F := ⟨init, ProducerPc.idle, ConsumerPc.line314⟩

/-- The image `findChessboardCorners` is handed by this decision, if it is that call. -/
def read_by_detector (t : Threads F) : Tick → List Mat
  | Tick.consumer =>
    match t.consumer with
    | ConsumerPc.line340 => [t.mem.userdata.image]
    | _ => []
  | _ => []

/-- The snapshot this decision stores into `userdata.image`, if it executes line 56. -/
def stored_by_callback (t : Threads F) : Tick → List Mat
  | Tick.producer _ =>
    match t.producer with
    | ProducerPc.line56 data =>
      [Mat.clone_of t.mem.userdata.video_height t.mem.userdata.video_width data]
    | _ => []
  | _ => []

/-- 1 when this decision is the main thread at `vcos_semaphore_wait`, else 0. -/
def wait_of (t : Threads F) : Tick → Nat
  | Tick.consumer =>
    match t.consumer with
    | ConsumerPc.line314 => 1
    | _ => 0
  | _ => 0

/-- The images handed to the detector along a schedule, in order. -/
def handed (detect : Mat → Bool × List (Point2f F)) (fmt : F → List Char) :
    Threads F → List Tick → List Mat
  | _, [] => []
  | t, e :: es =>
    match tick detect fmt t e with
    | none => []
    | some t1 => read_by_detector t e ++ handed detect fmt t1 es

/-- The snapshots stored by callbacks along a schedule, in order. -/
def stored (detect : Mat → Bool × List (Point2f F)) (fmt : F → List Char) :
    Threads F → List Tick → List Mat
  | _, [] => []
  | t, e :: es =>
    match tick detect fmt t e with
    | none => []
    | some t1 => stored_by_callback t e ++ stored detect fmt t1 es

/-- The number of waits that return along a schedule. -/
def wakes (detect : Mat → Bool × List (Point2f F)) (fmt : F → List Char) :
    Threads F → List Tick → Nat
  | _, [] => 0
  | t, e :: es =>
    match tick detect fmt t e with
    | none => 0
    | some t1 => wait_of t e + wakes detect fmt t1 es

end Threads

/-- The buffers delivered along a schedule, in order. -/
def deliveries : List Tick → List (List Nat)
  | [] => []
  | Tick.deliver data :: es => data :: deliveries es
  | _ :: es => deliveries es

/-- 1 while the callback has posted (line 61) and not yet counted the post (line 62). -/
def ProducerPc.uncounted_post : ProducerPc → Nat
  | ProducerPc.line62 => 1
  | _ => 0

/-- 1 while the callback has counted its frame (line 53) and neither taken nor given a
signal yet (lines 60-61). -/
def ProducerPc.unsettled : ProducerPc → Nat
  | ProducerPc.line56 _ => 1
  | ProducerPc.line60 => 1
  | ProducerPc.line61 => 1
  | _ => 0

/-- 1 while the wait has returned (line 314) and `opencv_frames` is not yet incremented
(line 315). -/
def ConsumerPc.uncounted_wake {F : Type} : ConsumerPc F → Nat
  | ConsumerPc.line315 => 1
  | _ => 0

/-- The counting invariant at statement granularity. -/
def threads_inv {F : Type} (t : Threads F) : Prop :=
  t.mem.userdata.complete_semaphore + (t.mem.opencv_frames + t.consumer.uncounted_wake) +
      t.mem.frame_count =
    2 * (t.mem.frame_post_count + t.producer.uncounted_post) + t.producer.unsettled ∧
  t.mem.frame_post_count + t.producer.uncounted_post + t.producer.unsettled ≤
    t.mem.frame_count ∧
  t.mem.userdata.complete_semaphore ≤ 1 ∧
  (t.producer = ProducerPc.line61 → t.mem.userdata.complete_semaphore = 0) ∧
  t.mem.userdata.video_width = 640 ∧ t.mem.userdata.video_height = 480

/-- The try-wait-or-post pattern of lines 60-63 on a count: 0 becomes 1, a positive
count loses one. -/
def toggled (count : Nat) : Nat := if count = 0 then 1 else count - 1

/-- The semaphore count there will be when the callback in progress has passed lines
60-63, if no wait returns before. -/
def pending_semaphore {F : Type} (t : Threads F) : Nat :=
  match t.producer with
  | ProducerPc.line50 _ => toggled t.mem.userdata.complete_semaphore
  | ProducerPc.line53 _ => toggled t.mem.userdata.complete_semaphore
  | ProducerPc.line56 _ => toggled t.mem.userdata.complete_semaphore
  | ProducerPc.line60 => toggled t.mem.userdata.complete_semaphore
  | ProducerPc.line61 => t.mem.userdata.complete_semaphore + 1
  | _ => t.mem.userdata.complete_semaphore

/-- The image there will be in `userdata.image` when the callback in progress has
passed line 56. -/
def pending_image {F : Type} (t : Threads F) : Mat :=
  match t.producer with
  | ProducerPc.line50 data =>
    Mat.clone_of t.mem.userdata.video_height t.mem.userdata.video_width data
  | ProducerPc.line53 data =>
    Mat.clone_of t.mem.userdata.video_height t.mem.userdata.video_width data
  | ProducerPc.line56 data =>
    Mat.clone_of t.mem.userdata.video_height t.mem.userdata.video_width data
  | _ => t.mem.userdata.image

/-- True while the callback thread has not stored the image of the callback in progress,
if any. -/
def ProducerPc.before_store : ProducerPc → Bool
  | ProducerPc.idle => true
  | ProducerPc.line50 _ => true
  | ProducerPc.line53 _ => true
  | ProducerPc.line56 _ => true
  | _ => false

/-- True while the main thread has to pass `vcos_semaphore_wait` before it next calls
the detector. -/
def ConsumerPc.before_wait {F : Type} : ConsumerPc F → Bool
  | ConsumerPc.line314 => true
  | ConsumerPc.line344 _ => true
  | ConsumerPc.line359 => true
  | _ => false

/-! ## The handoff invariants -/

section Handoff

variable {F : Type}

theorem callback_semaphore (data : List Nat) (now : ℚ) (s : State) :
    (video_buffer_callback data now s).userdata.complete_semaphore =
      if s.userdata.complete_semaphore = 0 then 1
      else s.userdata.complete_semaphore - 1 := by
  unfold video_buffer_callback vcos_semaphore_trywait vcos_semaphore_post
  by_cases h : 0 < s.userdata.complete_semaphore
  · have h0 : s.userdata.complete_semaphore ≠ 0 := Nat.pos_iff_ne_zero.mp h
    simp [h, h0]
  · have h0 : s.userdata.complete_semaphore = 0 := by omega
    simp [h0]

theorem callback_frame_post_count (data : List Nat) (now : ℚ) (s : State) :
    (video_buffer_callback data now s).frame_post_count =
      if s.userdata.complete_semaphore = 0 then s.frame_post_count + 1
      else s.frame_post_count := by
  unfold video_buffer_callback vcos_semaphore_trywait
  by_cases h : 0 < s.userdata.complete_semaphore
  · have h0 : s.userdata.complete_semaphore ≠ 0 := Nat.pos_iff_ne_zero.mp h
    simp [h, h0]
  · have h0 : s.userdata.complete_semaphore = 0 := by omega
    simp [h0]

theorem callback_frame_count (data : List Nat) (now : ℚ) (s : State) :
    (video_buffer_callback data now s).frame_count = s.frame_count + 1 := rfl

theorem callback_t1 (data : List Nat) (now : ℚ) (s : State) :
    (video_buffer_callback data now s).t1 = if s.frame_count = 0 then now else s.t1 := rfl

theorem callback_image (data : List Nat) (now : ℚ) (s : State) :
    (video_buffer_callback data now s).userdata.image =
      Mat.clone_of s.userdata.video_height s.userdata.video_width data := rfl

theorem callback_video_width (data : List Nat) (now : ℚ) (s : State) :
    (video_buffer_callback data now s).userdata.video_width = s.userdata.video_width := rfl

theorem callback_video_height (data : List Nat) (now : ℚ) (s : State) :
    (video_buffer_callback data now s).userdata.video_height = s.userdata.video_height :=
  rfl

theorem callback_opencv_frames (data : List Nat) (now : ℚ) (s : State) :
    (video_buffer_callback data now s).opencv_frames = s.opencv_frames := rfl

theorem callback_ncal_frames (data : List Nat) (now : ℚ) (s : State) :
    (video_buffer_callback data now s).ncal_frames = s.ncal_frames := rfl

theorem callback_cal_out (data : List Nat) (now : ℚ) (s : State) :
    (video_buffer_callback data now s).cal_out = s.cal_out := rfl

theorem detect_and_log_userdata (fmt : F → List Char) (res : Bool × List (Point2f F))
    (s : State) : (detect_and_log fmt res s).userdata = s.userdata := by
  unfold detect_and_log; split <;> rfl

theorem detect_and_log_frame_count (fmt : F → List Char) (res : Bool × List (Point2f F))
    (s : State) : (detect_and_log fmt res s).frame_count = s.frame_count := by
  unfold detect_and_log; split <;> rfl

theorem detect_and_log_frame_post_count (fmt : F → List Char)
    (res : Bool × List (Point2f F)) (s : State) :
    (detect_and_log fmt res s).frame_post_count = s.frame_post_count := by
  unfold detect_and_log; split <;> rfl

theorem detect_and_log_t1 (fmt : F → List Char) (res : Bool × List (Point2f F))
    (s : State) : (detect_and_log fmt res s).t1 = s.t1 := by
  unfold detect_and_log; split <;> rfl

theorem detect_and_log_opencv_frames (fmt : F → List Char) (res : Bool × List (Point2f F))
    (s : State) : (detect_and_log fmt res s).opencv_frames = s.opencv_frames := by
  unfold detect_and_log; split <;> rfl

/-- A wake-up is enabled exactly when the semaphore count is positive. -/
theorem consumer_cycle_eq_none (detect : Mat → Bool × List (Point2f F))
    (fmt : F → List Char) (s : State) :
    consumer_cycle detect fmt s = none ↔ s.userdata.complete_semaphore = 0 := by
  unfold consumer_cycle vcos_semaphore_wait
  by_cases h : 0 < s.userdata.complete_semaphore
  · have h0 : s.userdata.complete_semaphore ≠ 0 := Nat.pos_iff_ne_zero.mp h
    simp [h, h0]
  · have h0 : s.userdata.complete_semaphore = 0 := by omega
    simp [h0]

/-- What an enabled wake-up does to the fields the handoff is about. -/
theorem consumer_cycle_some (detect : Mat → Bool × List (Point2f F))
    (fmt : F → List Char) (s : State) (w : Wake)
    (h : consumer_cycle detect fmt s = some w) :
    0 < s.userdata.complete_semaphore ∧
    w.frame = s.userdata.image ∧
    w.next.userdata.complete_semaphore = s.userdata.complete_semaphore - 1 ∧
    w.next.userdata.image = s.userdata.image ∧
    w.next.userdata.video_width = s.userdata.video_width ∧
    w.next.userdata.video_height = s.userdata.video_height ∧
    w.next.userdata.video_fps = s.userdata.video_fps ∧
    w.next.opencv_frames = s.opencv_frames + 1 ∧
    w.next.frame_count = s.frame_count ∧
    w.next.frame_post_count = s.frame_post_count ∧
    w.next.t1 = s.t1 := by
  unfold consumer_cycle vcos_semaphore_wait at h
  by_cases hp : 0 < s.userdata.complete_semaphore
  · simp only [hp, if_true, Option.some.injEq] at h
    subst h
    simp [hp, detect_and_log_userdata, detect_and_log_frame_count,
      detect_and_log_frame_post_count, detect_and_log_t1, detect_and_log_opencv_frames]
  · simp [hp] at h

theorem handoff_inv_init : handoff_inv init := by
  simp [handoff_inv, init, main_userdata]

theorem handoff_inv_step (detect : Mat → Bool × List (Point2f F)) (fmt : F → List Char)
    (s s1 : State) (e : Event) (hs : handoff_inv s) (h : step detect fmt s e = some s1) :
    handoff_inv s1 := by
  obtain ⟨h1, h2, h3⟩ := hs
  cases e with
  | callback data now =>
    simp only [step, Option.some.injEq] at h
    subst h
    unfold handoff_inv
    rw [callback_semaphore, callback_frame_post_count, callback_frame_count,
      callback_opencv_frames]
    by_cases h0 : s.userdata.complete_semaphore = 0
    · simp only [h0, if_true]; omega
    · simp only [h0, if_false]; omega
  | wake =>
    cases hw : consumer_cycle detect fmt s with
    | none => simp [step, hw] at h
    | some w =>
      simp only [step, hw, Option.map_some', Option.some.injEq] at h
      subst h
      have hc := consumer_cycle_some detect fmt s w hw
      unfold handoff_inv
      omega

theorem handoff_inv_run (detect : Mat → Bool × List (Point2f F)) (fmt : F → List Char)
    (evs : List Event) : ∀ (s s1 : State), handoff_inv s →
      run detect fmt s evs = some s1 → handoff_inv s1 := by
  induction evs with
  | nil =>
    intro s s1 hs h
    simp only [run, Option.some.injEq] at h
    exact h ▸ hs
  | cons e es ih =>
    intro s s1 hs h
    simp only [run] at h
    cases hstep : step detect fmt s e with
    | none => simp [hstep] at h
    | some s2 =>
      simp only [hstep] at h
      exact ih s2 s1 (handoff_inv_step detect fmt s s2 e hs hstep) h

end Handoff

section HandoffClaims

variable {F : Type}

/-- Claim C1: along every finite interleaving of producer callbacks and consumer wake-ups
from the initial state, the semaphore count is 0 or 1 after every step (after the
first `k` steps, for every `k`). -/
theorem semaphore_count_zero_or_one (detect : Mat → Bool × List (Point2f F))
    (fmt : F → List Char) (evs : List Event) (k : Nat) (s : State)
    (h : run detect fmt init (evs.take k) = some s) :
    s.userdata.complete_semaphore = 0 ∨ s.userdata.complete_semaphore = 1 := by
  have hinv := handoff_inv_run detect fmt (evs.take k) init s handoff_inv_init h
  have := hinv.2.2
  omega

/-- Claim C10: from a handoff with semaphore count 0, two consecutive callbacks leave the
second frame stored, the count at 0, `frame_count` raised by 2 and `frame_post_count`
by 1; the wake-up is then not enabled, and is enabled after any further callback. -/
theorem back_to_back_callbacks_leave_no_signal (detect : Mat → Bool × List (Point2f F))
    (fmt : F → List Char) (s : State) (d1 d2 : List Nat) (now1 now2 : ℚ)
    (h : s.userdata.complete_semaphore = 0) :
    (video_buffer_callback d2 now2 (video_buffer_callback d1 now1 s)).userdata.image =
        Mat.clone_of s.userdata.video_height s.userdata.video_width d2 ∧
    (video_buffer_callback d2 now2
        (video_buffer_callback d1 now1 s)).userdata.complete_semaphore = 0 ∧
    (video_buffer_callback d2 now2 (video_buffer_callback d1 now1 s)).frame_count =
        s.frame_count + 2 ∧
    (video_buffer_callback d2 now2 (video_buffer_callback d1 now1 s)).frame_post_count =
        s.frame_post_count + 1 ∧
    consumer_cycle detect fmt
        (video_buffer_callback d2 now2 (video_buffer_callback d1 now1 s)) = none ∧
    ∀ (d3 : List Nat) (now3 : ℚ), consumer_cycle detect fmt (video_buffer_callback d3 now3
        (video_buffer_callback d2 now2 (video_buffer_callback d1 now1 s))) ≠ none := by
  have hs1 : (video_buffer_callback d1 now1 s).userdata.complete_semaphore = 1 := by
    rw [callback_semaphore]; simp [h]
  have hs2 : (video_buffer_callback d2 now2
      (video_buffer_callback d1 now1 s)).userdata.complete_semaphore = 0 := by
    rw [callback_semaphore]; simp [hs1]
  refine ⟨?_, hs2, ?_, ?_, ?_, ?_⟩
  · rw [callback_image, callback_video_height, callback_video_width]
  · simp only [callback_frame_count]
  · rw [callback_frame_post_count, callback_frame_post_count]
    simp [hs1, h]
  · exact (consumer_cycle_eq_none detect fmt _).mpr hs2
  · intro d3 now3 hn
    have := (consumer_cycle_eq_none detect fmt _).mp hn
    rw [callback_semaphore] at this
    simp [hs2] at this

end HandoffClaims

section HandoffWitnesses

variable {F : Type}

/-- Witness for C1: a callback followed by a wake-up, cut out of a longer interleaving. -/
theorem semaphore_count_zero_or_one_witness :
    run sample_detect sample_fmt init
        ([Event.callback [7, 7] 0, Event.wake, Event.callback [8] 1].take 2) =
      some ⟨⟨640, 480, 640, 480, 640, 480, 0, ⟨480, 640, [7, 7]⟩, 0⟩, 1, 1, 0, 1, 0, []⟩ ∧
    ((0 : Nat) = 0 ∨ (0 : Nat) = 1) :=
  ⟨rfl, semaphore_count_zero_or_one sample_detect sample_fmt
    [Event.callback [7, 7] 0, Event.wake, Event.callback [8] 1] 2
    ⟨⟨640, 480, 640, 480, 640, 480, 0, ⟨480, 640, [7, 7]⟩, 0⟩, 1, 1, 0, 1, 0, []⟩ rfl⟩

/-- Witness for C10: the first two callbacks after start-up. -/
theorem back_to_back_callbacks_leave_no_signal_witness :
    init.userdata.complete_semaphore = 0 ∧
    (video_buffer_callback [2] 1 (video_buffer_callback [1] 0 init)).userdata.image =
        Mat.clone_of 480 640 [2] ∧
    (video_buffer_callback [2] 1
        (video_buffer_callback [1] 0 init)).userdata.complete_semaphore = 0 ∧
    (video_buffer_callback [2] 1 (video_buffer_callback [1] 0 init)).frame_count = 0 + 2 ∧
    (video_buffer_callback [2] 1 (video_buffer_callback [1] 0 init)).frame_post_count =
        0 + 1 ∧
    consumer_cycle sample_detect sample_fmt
        (video_buffer_callback [2] 1 (video_buffer_callback [1] 0 init)) = none ∧
    consumer_cycle sample_detect sample_fmt (video_buffer_callback [3] 2
        (video_buffer_callback [2] 1 (video_buffer_callback [1] 0 init))) ≠ none :=
  ⟨rfl,
    (back_to_back_callbacks_leave_no_signal sample_detect sample_fmt init [1] [2] 0 1 rfl).1,
    (back_to_back_callbacks_leave_no_signal sample_detect sample_fmt init [1] [2] 0 1
      rfl).2.1,
    (back_to_back_callbacks_leave_no_signal sample_detect sample_fmt init [1] [2] 0 1
      rfl).2.2.1,
    (back_to_back_callbacks_leave_no_signal sample_detect sample_fmt init [1] [2] 0 1
      rfl).2.2.2.1,
    (back_to_back_callbacks_leave_no_signal sample_detect sample_fmt init [1] [2] 0 1
      rfl).2.2.2.2.1,
    (back_to_back_callbacks_leave_no_signal sample_detect sample_fmt init [1] [2] 0 1
      rfl).2.2.2.2.2 [3] 2⟩

end HandoffWitnesses

section Logger

variable {F : Type}

theorem detect_and_log_cal_out (fmt : F → List Char) (res : Bool × List (Point2f F))
    (s : State) : (detect_and_log fmt res s).cal_out =
      s.cal_out ++ (if res.1 = true then fprintf_points fmt res.2 ++ ['\n'] else []) := by
  unfold detect_and_log
  split <;> simp

theorem detect_and_log_ncal_frames (fmt : F → List Char) (res : Bool × List (Point2f F))
    (s : State) : (detect_and_log fmt res s).ncal_frames =
      s.ncal_frames + (if res.1 = true then 1 else 0) := by
  unfold detect_and_log
  split <;> simp

/-- What an enabled wake-up does to the log and to `ncal_frames`. -/
theorem consumer_cycle_log (detect : Mat → Bool × List (Point2f F)) (fmt : F → List Char)
    (s : State) (w : Wake) (h : consumer_cycle detect fmt s = some w) :
    w.next.cal_out = s.cal_out ++
      (if (detect w.frame).1 = true then fprintf_points fmt (detect w.frame).2 ++ ['\n']
        else []) ∧
    w.next.ncal_frames = s.ncal_frames + (if (detect w.frame).1 = true then 1 else 0) := by
  unfold consumer_cycle vcos_semaphore_wait at h
  by_cases hp : 0 < s.userdata.complete_semaphore
  · simp only [hp, if_true, Option.some.injEq] at h
    subst h
    exact ⟨detect_and_log_cal_out _ _ _, detect_and_log_ncal_frames _ _ _⟩
  · simp [hp] at h

theorem fprintf_points_no_newline (fmt : F → List Char) (hfmt : ∀ v, '\n' ∉ fmt v)
    (ps : List (Point2f F)) : '\n' ∉ fprintf_points fmt ps := by
  induction ps with
  | nil => simp [fprintf_points]
  | cons p ps ih =>
    simp only [fprintf_points, fprintf_point, List.mem_append, not_or]
    refine ⟨⟨⟨⟨hfmt _, by decide⟩, hfmt _⟩, by decide⟩, ih⟩

theorem count_newline_terminated (lines : List (List Char))
    (h : ∀ l ∈ lines, '\n' ∉ l) :
    (newline_terminated lines).count '\n' = lines.length := by
  induction lines with
  | nil => rfl
  | cons l ls ih =>
    have hl : List.count '\n' l = 0 := List.count_eq_zero.mpr (h l (List.mem_cons_self _ _))
    have := ih (fun m hm => h m (List.mem_cons_of_mem _ hm))
    unfold newline_terminated at this ⊢
    simp only [List.map_cons, List.flatten_cons, List.count_append, List.length_cons, this,
      hl]
    simp
    omega

/-- Log, `ncal_frames` and `opencv_frames` after a run, in terms of the images the
detector was handed. -/
theorem run_log (detect : Mat → Bool × List (Point2f F)) (fmt : F → List Char)
    (evs : List Event) : ∀ (s s1 : State), run detect fmt s evs = some s1 →
      s1.opencv_frames = s.opencv_frames + (observed detect fmt s evs).length ∧
      s1.ncal_frames = s.ncal_frames +
        (found_point_sets detect (observed detect fmt s evs)).length ∧
      s1.cal_out = s.cal_out ++ newline_terminated
        ((found_point_sets detect (observed detect fmt s evs)).map (fprintf_points fmt)) := by
  induction evs with
  | nil =>
    intro s s1 h
    simp only [run, Option.some.injEq] at h
    subst h
    simp [observed, found_point_sets, newline_terminated]
  | cons e es ih =>
    intro s s1 h
    cases e with
    | callback data now =>
      simp only [run, step] at h
      obtain ⟨h1, h2, h3⟩ := ih _ s1 h
      simp only [observed]
      exact ⟨h1, h2, h3⟩
    | wake =>
      cases hw : consumer_cycle detect fmt s with
      | none => simp [run, step, hw] at h
      | some w =>
        simp only [run, step, hw, Option.map_some'] at h
        obtain ⟨h1, h2, h3⟩ := ih _ s1 h
        obtain ⟨hl, hn⟩ := consumer_cycle_log detect fmt s w hw
        have ho := (consumer_cycle_some detect fmt s w hw).2.2.2.2.2.2.2.1
        simp only [observed, hw]
        rw [h1, h2, h3, hl, hn, ho]
        by_cases hf : (detect w.frame).1 = true
        · simp [found_point_sets, newline_terminated, hf, List.filter_cons]
          omega
        · simp [found_point_sets, newline_terminated, hf, List.filter_cons]
          omega

/-- Claim C4: run any interleaving from the initial state (empty log, `ncal_frames` 0)
and let the detector be handed N images, K of them with `found = true`. Then
`opencv_frames = N`, `ncal_frames = K`, and the log is exactly K newline-terminated
lines (the rendered point sets of the found frames, none containing a newline, so the
log holds K newline characters); a cycle with `found = false` leaves the log and
`ncal_frames` unchanged. The `%f` conversion `fmt` is assumed to emit no newline. -/
theorem log_has_one_line_per_found_frame (detect : Mat → Bool × List (Point2f F))
    (fmt : F → List Char) (hfmt : ∀ v, '\n' ∉ fmt v) (evs : List Event) (s : State)
    (h : run detect fmt init evs = some s) :
    s.opencv_frames = (observed detect fmt init evs).length ∧
    s.ncal_frames =
      ((observed detect fmt init evs).filter (fun m => (detect m).1)).length ∧
    s.cal_out = newline_terminated
      ((found_point_sets detect (observed detect fmt init evs)).map (fprintf_points fmt)) ∧
    ((found_point_sets detect (observed detect fmt init evs)).map
      (fprintf_points fmt)).length =
      ((observed detect fmt init evs).filter (fun m => (detect m).1)).length ∧
    (∀ l ∈ (found_point_sets detect (observed detect fmt init evs)).map
      (fprintf_points fmt), '\n' ∉ l) ∧
    s.cal_out.count '\n' =
      ((observed detect fmt init evs).filter (fun m => (detect m).1)).length ∧
    (∀ (t : State) (w : Wake), consumer_cycle detect fmt t = some w →
      (detect w.frame).1 = false →
      w.next.cal_out = t.cal_out ∧ w.next.ncal_frames = t.ncal_frames) := by
  obtain ⟨h1, h2, h3⟩ := run_log detect fmt evs init s h
  have hlen : ((found_point_sets detect (observed detect fmt init evs)).map
      (fprintf_points fmt)).length =
      ((observed detect fmt init evs).filter (fun m => (detect m).1)).length := by
    simp [found_point_sets]
  have hno : ∀ l ∈ (found_point_sets detect (observed detect fmt init evs)).map
      (fprintf_points fmt), '\n' ∉ l := by
    intro l hl
    obtain ⟨ps, _, rfl⟩ := List.mem_map.mp hl
    exact fprintf_points_no_newline fmt hfmt ps
  refine ⟨?_, ?_, ?_, hlen, hno, ?_, ?_⟩
  · simpa [init] using h1
  · rw [h2]; simp [init, found_point_sets]
  · simpa [init] using h3
  · have h0 : init.cal_out = [] := rfl
    rw [h3, h0, List.nil_append, count_newline_terminated _ hno, hlen]
  · intro t w hw hf
    obtain ⟨hl, hn⟩ := consumer_cycle_log detect fmt t w hw
    simp [hl, hn, hf]

end Logger

section LogLine

variable {F : Type}

theorem fields_from_word (w : List Char) (hw : ∀ c ∈ w, is_blank c = false) :
    ∀ (cur rest : List Char), fields_from cur (w ++ rest) = fields_from (cur ++ w) rest := by
  induction w with
  | nil => intro cur rest; simp
  | cons c cs ih =>
    intro cur rest
    have hc : is_blank c = false := hw c (List.mem_cons_self _ _)
    have := ih (fun d hd => hw d (List.mem_cons_of_mem _ hd)) (cur ++ [c]) rest
    rw [List.cons_append]
    show (if is_blank c = true then _ else fields_from (cur ++ [c]) (cs ++ rest)) = _
    rw [hc, this]
    simp

theorem fields_from_blank (cur rest : List Char) (c : Char) (hc : is_blank c = true)
    (hcur : cur ≠ []) : fields_from cur (c :: rest) = cur :: fields_from [] rest := by
  simp [fields_from, hc, hcur]

theorem fields_from_number (fmt : F → List Char) (hne : ∀ v, fmt v ≠ [])
    (hnb : ∀ v, ∀ c ∈ fmt v, is_blank c = false) (v : F) (rest : List Char) :
    fields_from [] (fmt v ++ ' ' :: rest) = fmt v :: fields_from [] rest := by
  rw [fields_from_word (fmt v) (hnb v), List.nil_append,
    fields_from_blank _ _ ' ' (by decide) (hne v)]

/-- Reading back what the `for` loop wrote gives the coordinates, in order. -/
theorem fields_fprintf_points (fmt : F → List Char) (hne : ∀ v, fmt v ≠ [])
    (hnb : ∀ v, ∀ c ∈ fmt v, is_blank c = false) (ps : List (Point2f F)) :
    whitespace_fields (fprintf_points fmt ps ++ ['\n']) =
      ps.flatMap (fun p => [fmt p.x, fmt p.y]) := by
  unfold whitespace_fields
  induction ps with
  | nil => simp [fprintf_points, fields_from, is_blank]
  | cons p ps ih =>
    have : fprintf_points fmt (p :: ps) ++ ['\n'] =
        fmt p.x ++ ' ' :: (fmt p.y ++ ' ' :: (fprintf_points fmt ps ++ ['\n'])) := by
      simp [fprintf_points, fprintf_point]
    rw [this, fields_from_number fmt hne hnb, fields_from_number fmt hne hnb, ih]
    simp

theorem fprintf_points_eq_flatMap (fmt : F → List Char) (ps : List (Point2f F)) :
    fprintf_points fmt ps =
      (ps.flatMap (fun p => [fmt p.x, fmt p.y])).flatMap (fun t => t ++ [' ']) := by
  induction ps with
  | nil => rfl
  | cons p ps ih => simp [fprintf_points, fprintf_point, ih]

theorem pairs_getElem (fmt : F → List Char) (ps : List (Point2f F)) :
    ∀ (i : Nat) (p : Point2f F), ps[i]? = some p →
      (ps.flatMap (fun p => [fmt p.x, fmt p.y]))[2 * i]? = some (fmt p.x) ∧
      (ps.flatMap (fun p => [fmt p.x, fmt p.y]))[2 * i + 1]? = some (fmt p.y) := by
  induction ps with
  | nil => intro i p h; simp at h
  | cons q qs ih =>
    intro i p h
    cases i with
    | zero =>
      simp only [List.getElem?_cons_zero, Option.some.injEq] at h
      subst h
      simp
    | succ j =>
      simp only [List.getElem?_cons_succ] at h
      obtain ⟨h1, h2⟩ := ih j p h
      have e1 : 2 * (j + 1) = (2 * j) + 1 + 1 := by ring
      have e2 : 2 * (j + 1) + 1 = (2 * j + 1) + 1 + 1 := by ring
      rw [e2, e1]
      simpa using ⟨h1, h2⟩

/-- Claim C5: in a consumer cycle with `found = true` and detected points `p_1 .. p_n`, the
text appended to the log is the line `x_1 y_1 ... x_n y_n`, every number followed by
one space, then a newline; read back as blank-separated fields the line has exactly
`2 n` fields (98 for 49 points) and fields `2 i`, `2 i + 1` (counted from 0) are the
x and y of the point at index `i`. The `%f` conversion `fmt` is assumed to emit a
non-empty text free of spaces and newlines. -/
theorem log_line_holds_points_in_order (detect : Mat → Bool × List (Point2f F))
    (fmt : F → List Char) (hne : ∀ v, fmt v ≠ [])
    (hnb : ∀ v, ' ' ∉ fmt v ∧ '\n' ∉ fmt v) (t : State) (w : Wake)
    (hw : consumer_cycle detect fmt t = some w) (hfound : (detect w.frame).1 = true) :
    w.next.cal_out = t.cal_out ++ (fprintf_points fmt (detect w.frame).2 ++ ['\n']) ∧
    fprintf_points fmt (detect w.frame).2 =
      ((detect w.frame).2.flatMap (fun p => [fmt p.x, fmt p.y])).flatMap
        (fun t => t ++ [' ']) ∧
    whitespace_fields (fprintf_points fmt (detect w.frame).2 ++ ['\n']) =
      (detect w.frame).2.flatMap (fun p => [fmt p.x, fmt p.y]) ∧
    (whitespace_fields (fprintf_points fmt (detect w.frame).2 ++ ['\n'])).length =
      2 * (detect w.frame).2.length ∧
    ((detect w.frame).2.length = 49 →
      (whitespace_fields (fprintf_points fmt (detect w.frame).2 ++ ['\n'])).length = 98) ∧
    ∀ (i : Nat) (p : Point2f F), (detect w.frame).2[i]? = some p →
      (whitespace_fields (fprintf_points fmt (detect w.frame).2 ++ ['\n']))[2 * i]? =
        some (fmt p.x) ∧
      (whitespace_fields (fprintf_points fmt (detect w.frame).2 ++ ['\n']))[2 * i + 1]? =
        some (fmt p.y) := by
  have hb : ∀ v, ∀ c ∈ fmt v, is_blank c = false := by
    intro v c hc
    have h1 : c ≠ ' ' := fun e => (hnb v).1 (e ▸ hc)
    have h2 : c ≠ '\n' := fun e => (hnb v).2 (e ▸ hc)
    simp [is_blank, h1, h2]
  have hfields := fields_fprintf_points fmt hne hb (detect w.frame).2
  have hlen : (whitespace_fields (fprintf_points fmt (detect w.frame).2 ++ ['\n'])).length =
      2 * (detect w.frame).2.length := by
    rw [hfields]
    generalize (detect w.frame).2 = ps
    induction ps with
    | nil => rfl
    | cons p ps ih => simp [List.flatMap_cons, ih]; omega
  refine ⟨?_, fprintf_points_eq_flatMap fmt _, hfields, hlen, ?_, ?_⟩
  · have := (consumer_cycle_log detect fmt t w hw).1
    simpa [hfound] using this
  · intro h49
    rw [hlen, h49]
  · intro i p hp
    rw [hfields]
    exact pairs_getElem fmt _ i p hp

end LogLine

section LoggerWitnesses

/-- Witness for C4: three callbacks, then a wake-up on a frame in which the grid is found. -/
theorem log_has_one_line_per_found_frame_witness :
    run sample_detect sample_fmt init
        [Event.callback [7, 7] 0, Event.callback [8] 1, Event.callback [9] 2, Event.wake] =
      some ⟨⟨640, 480, 640, 480, 640, 480, 0, ⟨480, 640, [9]⟩, 0⟩, 3, 2, 0, 1, 1,
        sample_fmt true ++ [' '] ++ sample_fmt false ++ [' '] ++ sample_fmt false ++
          [' '] ++ sample_fmt true ++ [' ', '\n']⟩ ∧
    (1 : Nat) = ((observed sample_detect sample_fmt init
        [Event.callback [7, 7] 0, Event.callback [8] 1, Event.callback [9] 2,
          Event.wake]).filter (fun m => (sample_detect m).1)).length :=
  ⟨rfl, (log_has_one_line_per_found_frame sample_detect sample_fmt (by decide)
    [Event.callback [7, 7] 0, Event.callback [8] 1, Event.callback [9] 2, Event.wake]
    ⟨⟨640, 480, 640, 480, 640, 480, 0, ⟨480, 640, [9]⟩, 0⟩, 3, 2, 0, 1, 1,
        sample_fmt true ++ [' '] ++ sample_fmt false ++ [' '] ++ sample_fmt false ++
          [' '] ++ sample_fmt true ++ [' ', '\n']⟩ rfl).2.1⟩

/-- Witness for C5: a wake-up on a frame in which the sample detector finds two points. -/
theorem log_line_holds_points_in_order_witness :
    consumer_cycle sample_detect sample_fmt
        ⟨⟨640, 480, 640, 480, 640, 480, 0, ⟨480, 640, [9]⟩, 1⟩, 1, 1, 0, 0, 0, []⟩ =
      some ⟨⟨480, 640, [9]⟩,
        ⟨⟨640, 480, 640, 480, 640, 480, 0, ⟨480, 640, [9]⟩, 0⟩, 1, 1, 0, 1, 1,
          sample_fmt true ++ [' '] ++ sample_fmt false ++ [' '] ++ sample_fmt false ++
            [' '] ++ sample_fmt true ++ [' ', '\n']⟩⟩ ∧
    whitespace_fields (fprintf_points sample_fmt (sample_detect ⟨480, 640, [9]⟩).2 ++ ['\n']) =
      (sample_detect ⟨480, 640, [9]⟩).2.flatMap (fun p => [sample_fmt p.x, sample_fmt p.y]) :=
  ⟨rfl, (log_line_holds_points_in_order sample_detect sample_fmt (by decide) (by decide)
    ⟨⟨640, 480, 640, 480, 640, 480, 0, ⟨480, 640, [9]⟩, 1⟩, 1, 1, 0, 0, 0, []⟩
    ⟨⟨480, 640, [9]⟩,
        ⟨⟨640, 480, 640, 480, 640, 480, 0, ⟨480, 640, [9]⟩, 0⟩, 1, 1, 0, 1, 1,
          sample_fmt true ++ [' '] ++ sample_fmt false ++ [' '] ++ sample_fmt false ++
            [' '] ++ sample_fmt true ++ [' ', '\n']⟩⟩ rfl rfl).2.2.1⟩

end LoggerWitnesses

/-! ## The hardware-side rate -/

section Rate

variable {F : Type}

theorem callback_video_fps (data : List Nat) (now : ℚ) (s : State) :
    (video_buffer_callback data now s).userdata.video_fps =
      if (s.frame_count + 1) % 10 = 0 then
        (if now - (if s.frame_count = 0 then now else s.t1) > 0 then
          ((s.frame_count + 1 : ℕ) : ℚ) / (now - (if s.frame_count = 0 then now else s.t1))
        else ((s.frame_count + 1 : ℕ) : ℚ))
      else s.userdata.video_fps := rfl

/-- Along a run `frame_count` counts the callbacks and `t1` keeps the clock reading of
the first callback. -/
theorem run_frame_count_t1 (detect : Mat → Bool × List (Point2f F)) (fmt : F → List Char)
    (evs : List Event) : ∀ (s s1 : State), run detect fmt s evs = some s1 →
      s1.frame_count = s.frame_count + (callback_times evs).length ∧
      s1.t1 = if s.frame_count = 0 then ((callback_times evs).head?).getD s.t1 else s.t1 := by
  induction evs with
  | nil =>
    intro s s1 h
    simp only [run, Option.some.injEq] at h
    subst h
    simp [callback_times]
  | cons e es ih =>
    intro s s1 h
    cases e with
    | callback data now =>
      simp only [run, step] at h
      obtain ⟨h1, h2⟩ := ih _ s1 h
      rw [callback_frame_count] at h1 h2
      rw [callback_t1] at h2
      refine ⟨by simp [callback_times, h1]; omega, ?_⟩
      rw [h2]
      simp [callback_times]
    | wake =>
      cases hw : consumer_cycle detect fmt s with
      | none => simp [run, step, hw] at h
      | some w =>
        simp only [run, step, hw, Option.map_some'] at h
        obtain ⟨h1, h2⟩ := ih _ s1 h
        have hc := consumer_cycle_some detect fmt s w hw
        rw [hc.2.2.2.2.2.2.2.2.1] at h1 h2
        rw [hc.2.2.2.2.2.2.2.2.2.2] at h2
        exact ⟨by simpa [callback_times] using h1, by simpa [callback_times] using h2⟩

/-- Claim C6: let the callbacks of a run from the initial state arrive at a fixed interval
`I > 0`, the `k`-th at `t0 + (k - 1) * I`. At the `n`-th callback, for `n ≥ 2` a
multiple of 10 (the calls at which the rate is computed), the rate stored is
`n / ((n - 1) * I)`; its relative error against `1 / I` is `1 / (n - 1)`, which is
below `eps > 0` as soon as `n > 1 + 1 / eps`. Time and rate are exact rationals. -/
theorem rate_at_fixed_interval (detect : Mat → Bool × List (Point2f F))
    (fmt : F → List Char) (evs : List Event) (s : State) (t0 I : ℚ) (n : Nat)
    (data : List Nat) (hI : 0 < I) (hn : 2 ≤ n) (h10 : n % 10 = 0)
    (hrun : run detect fmt init evs = some s)
    (htimes : callback_times evs =
      (List.range (n - 1)).map (fun (k : Nat) => t0 + (k : ℚ) * I)) :
    (video_buffer_callback data (t0 + ((n - 1 : ℕ) : ℚ) * I) s).userdata.video_fps =
      (n : ℚ) / (((n : ℚ) - 1) * I) ∧
    |(video_buffer_callback data (t0 + ((n - 1 : ℕ) : ℚ) * I) s).userdata.video_fps - 1 / I| /
      (1 / I) = 1 / ((n : ℚ) - 1) ∧
    ∀ eps : ℚ, 0 < eps → (n : ℚ) > 1 + 1 / eps →
      |(video_buffer_callback data (t0 + ((n - 1 : ℕ) : ℚ) * I) s).userdata.video_fps
        - 1 / I| / (1 / I) < eps := by
  obtain ⟨hfc, ht1⟩ := run_frame_count_t1 detect fmt evs init s hrun
  obtain ⟨m, rfl⟩ : ∃ m, n = m + 2 := ⟨n - 2, by omega⟩
  have hsub : m + 2 - 1 = m + 1 := by omega
  rw [hsub] at htimes ⊢
  have hfc1 : s.frame_count = m + 1 := by
    rw [hfc, htimes]; simp [init]
  have ht : s.t1 = t0 := by
    rw [ht1, htimes]
    simp [init, List.range_succ_eq_map]
  have hm : (0 : ℚ) ≤ (m : ℚ) := Nat.cast_nonneg m
  have hm0 : (0 : ℚ) < (m : ℚ) + 1 := by linarith
  have hpos : (0 : ℚ) < ((m : ℚ) + 1) * I := mul_pos hm0 hI
  have hI0 : I ≠ 0 := ne_of_gt hI
  have hn1 : ((m + 2 : ℕ) : ℚ) - 1 = (m : ℚ) + 1 := by push_cast; ring
  have hfps : (video_buffer_callback data (t0 + ((m + 1 : ℕ) : ℚ) * I) s).userdata.video_fps
      = ((m + 2 : ℕ) : ℚ) / ((((m + 2 : ℕ) : ℚ) - 1) * I) := by
    rw [callback_video_fps, hfc1, ht, hn1]
    have h10a : (m + 1 + 1) % 10 = 0 := h10
    have hd : t0 + ((m + 1 : ℕ) : ℚ) * I - t0 = ((m : ℚ) + 1) * I := by push_cast; ring
    simp only [h10a, if_true, Nat.add_one_ne_zero, if_false, hd, hpos, gt_iff_lt]
  have hrel : |((m + 2 : ℕ) : ℚ) / ((((m + 2 : ℕ) : ℚ) - 1) * I) - 1 / I| / (1 / I) =
      1 / (((m + 2 : ℕ) : ℚ) - 1) := by
    rw [hn1]
    have hdiff : ((m + 2 : ℕ) : ℚ) / (((m : ℚ) + 1) * I) - 1 / I =
        1 / (((m : ℚ) + 1) * I) := by
      push_cast
      field_simp
      ring
    rw [hdiff, abs_of_pos (div_pos one_pos hpos)]
    field_simp
    ring
  refine ⟨hfps, ?_, ?_⟩
  · rw [hfps, hrel]
  · intro eps heps hgt
    rw [hfps, hrel, hn1]
    have h1 : 1 / eps < (m : ℚ) + 1 := by rw [← hn1]; linarith
    rw [div_lt_iff₀ heps] at h1
    rw [div_lt_iff₀ hm0]
    linarith

/-- Witness for C6: nine callbacks 1/30 s apart have run; the tenth computes the rate. -/
theorem rate_at_fixed_interval_witness :
    run sample_detect sample_fmt init
        [Event.callback [] 0, Event.callback [] (1 / 30), Event.callback [] (2 / 30),
          Event.callback [] (3 / 30), Event.callback [] (4 / 30), Event.callback [] (5 / 30),
          Event.callback [] (6 / 30), Event.callback [] (7 / 30),
          Event.callback [] (8 / 30)] =
      some ⟨⟨640, 480, 640, 480, 640, 480, 0, ⟨480, 640, []⟩, 1⟩, 9, 5, 0, 0, 0, []⟩ ∧
    (video_buffer_callback [] (0 + ((10 - 1 : ℕ) : ℚ) * (1 / 30))
        ⟨⟨640, 480, 640, 480, 640, 480, 0, ⟨480, 640, []⟩, 1⟩, 9, 5, 0, 0, 0,
          []⟩).userdata.video_fps =
      ((10 : ℕ) : ℚ) / ((((10 : ℕ) : ℚ) - 1) * (1 / 30)) :=
  ⟨rfl, (rate_at_fixed_interval sample_detect sample_fmt
    [Event.callback [] 0, Event.callback [] (1 / 30), Event.callback [] (2 / 30),
      Event.callback [] (3 / 30), Event.callback [] (4 / 30), Event.callback [] (5 / 30),
      Event.callback [] (6 / 30), Event.callback [] (7 / 30), Event.callback [] (8 / 30)]
    ⟨⟨640, 480, 640, 480, 640, 480, 0, ⟨480, 640, []⟩, 1⟩, 9, 5, 0, 0, 0, []⟩
    0 (1 / 30) 10 [] (by norm_num) (by norm_num) (by norm_num) rfl
    (by norm_num [callback_times, List.range_succ])).1⟩

end Rate

/-! ## Setup -/

section Setup

/-- Claim C8, evaluated on the code: the video format `main` commits has width 640 and
crop 640x480 at 30/1 frames per second, but its `height` field is assigned from
`video_width` and so is 640, while `video_height` is 480 and every snapshot built by
`video_buffer_callback` has 480 rows and 640 columns. -/
theorem committed_video_height_is_video_width :
    (main_setup all_succeed).1[2]? =
      some (Call.mmal_port_format_commit_video
        ⟨MMAL_ENCODING.MMAL_ENCODING_I420, MMAL_ENCODING.MMAL_ENCODING_I420,
          640, 640, 0, 0, 640, 480, 30, 1⟩) ∧
    (video_port_format main_userdata all_succeed.video_format).height = 640 ∧
    main_userdata.video_height = 480 ∧
    (video_buffer_callback [] 0 init).userdata.image.rows = 480 ∧
    (video_buffer_callback [] 0 init).userdata.image.cols = 640 := by
  refine ⟨rfl, rfl, rfl, rfl, rfl⟩

/-- Claim C7, evaluated on the code: when `mmal_component_enable(camera)` fails and every
other call succeeds, `main` makes all later setup calls and enters the consumer loop;
when `mmal_port_pool_create` returns a null pool, `main` still makes every setup call
up to `mmal_connection_enable` and then dereferences the null pointer. In neither
case does it return. -/
theorem setup_continues_after_unchecked_failure :
    main_setup { all_succeed with component_enable_camera := MMAL_STATUS_T.failure 1 } =
      ([Call.mmal_component_create_camera, Call.mmal_port_parameter_set_camera_config,
        Call.mmal_port_format_commit_video
          ⟨MMAL_ENCODING.MMAL_ENCODING_I420, MMAL_ENCODING.MMAL_ENCODING_I420,
            640, 640, 0, 0, 640, 480, 30, 1⟩,
        Call.mmal_port_format_commit_preview
          ⟨MMAL_ENCODING.MMAL_ENCODING_OPAQUE, MMAL_ENCODING.MMAL_ENCODING_I420,
            640, 480, 0, 0, 640, 480, 0, 0⟩,
        Call.mmal_port_pool_create 1 460800, Call.mmal_port_enable_video,
        Call.mmal_component_enable_camera, Call.mmal_component_create_preview,
        Call.mmal_port_parameter_set_displayregion, Call.mmal_port_parameter_set_mirror,
        Call.mmal_connection_create, Call.mmal_connection_enable, Call.mmal_queue_length,
        Call.mmal_port_parameter_set_capture, Call.vcos_semaphore_create 0],
       Outcome.consumer_loop) ∧
    main_setup { all_succeed with pool_created := false } =
      ([Call.mmal_component_create_camera, Call.mmal_port_parameter_set_camera_config,
        Call.mmal_port_format_commit_video
          ⟨MMAL_ENCODING.MMAL_ENCODING_I420, MMAL_ENCODING.MMAL_ENCODING_I420,
            640, 640, 0, 0, 640, 480, 30, 1⟩,
        Call.mmal_port_format_commit_preview
          ⟨MMAL_ENCODING.MMAL_ENCODING_OPAQUE, MMAL_ENCODING.MMAL_ENCODING_I420,
            640, 480, 0, 0, 640, 480, 0, 0⟩,
        Call.mmal_port_pool_create 1 460800, Call.mmal_port_enable_video,
        Call.mmal_component_enable_camera, Call.mmal_component_create_preview,
        Call.mmal_port_parameter_set_displayregion, Call.mmal_port_parameter_set_mirror,
        Call.mmal_connection_create, Call.mmal_connection_enable],
       Outcome.null_pool_dereferenced) := by
  exact ⟨rfl, rfl⟩

/-- A failing status from a call whose status `main` tests ends the setup at once: the
failing call is the last one made and `main` returns -1. Shown for the first and the
last tested call. -/
theorem checked_failures_return (env : Collaborators) :
    (env.component_create_camera ≠ MMAL_STATUS_T.MMAL_SUCCESS →
      main_setup env = ([Call.mmal_component_create_camera], Outcome.returned (-1))) ∧
    (env.component_create_camera = MMAL_STATUS_T.MMAL_SUCCESS →
      env.format_commit_video = MMAL_STATUS_T.MMAL_SUCCESS →
      env.format_commit_preview = MMAL_STATUS_T.MMAL_SUCCESS →
      env.port_enable_video = MMAL_STATUS_T.MMAL_SUCCESS →
      env.component_create_preview = MMAL_STATUS_T.MMAL_SUCCESS →
      env.parameter_set_displayregion = MMAL_STATUS_T.MMAL_SUCCESS →
      env.connection_create = MMAL_STATUS_T.MMAL_SUCCESS →
      env.connection_enable ≠ MMAL_STATUS_T.MMAL_SUCCESS →
      (main_setup env).2 = Outcome.returned (-1) ∧
      (main_setup env).1.getLast? = some Call.mmal_connection_enable) := by
  refine ⟨?_, ?_⟩
  · intro h
    simp [main_setup, h]
  · intro h1 h2 h3 h4 h5 h6 h7 h8
    simp [main_setup, h1, h2, h3, h4, h5, h6, h7, h8]

end Setup

/-! ## The handoff at statement granularity -/

section ThreadsInvariant

variable {F : Type}

theorem threads_inv_start : threads_inv (start : Threads F) := by
  simp [threads_inv, start, init, main_userdata, ProducerPc.uncounted_post,
    ProducerPc.unsettled, ConsumerPc.uncounted_wake]

theorem threads_inv_tick (detect : Mat → Bool × List (Point2f F)) (fmt : F → List Char)
    (t t1 : Threads F) (e : Tick) (hinv : threads_inv t)
    (h : tick detect fmt t e = some t1) : threads_inv t1 := by
  obtain ⟨m, pp, cp⟩ := t
  obtain ⟨h1, h2, h3, h4, h5, h6⟩ := hinv
  simp only at h1 h2 h3 h4 h5 h6
  cases e with
  | deliver data =>
    cases pp <;> simp only [tick, Option.some.injEq, reduceCtorEq] at h
    subst h
    simp only [threads_inv, ProducerPc.uncounted_post, ProducerPc.unsettled] at h1 h2 ⊢
    exact ⟨h1, h2, h3, by simp, h5, h6⟩
  | producer now =>
    cases pp with
    | idle => simp [tick, producer_tick] at h
    | line50 data =>
      simp only [tick, producer_tick, Option.some.injEq] at h
      subst h
      simp only [threads_inv, ProducerPc.uncounted_post, ProducerPc.unsettled] at h1 h2 ⊢
      exact ⟨h1, h2, h3, by simp, h5, h6⟩
    | line53 data =>
      simp only [tick, producer_tick, Option.some.injEq] at h
      subst h
      simp only [threads_inv, ProducerPc.uncounted_post, ProducerPc.unsettled] at h1 h2 ⊢
      exact ⟨by omega, by omega, h3, by simp, h5, h6⟩
    | line56 data =>
      simp only [tick, producer_tick, Option.some.injEq] at h
      subst h
      simp only [threads_inv, ProducerPc.uncounted_post, ProducerPc.unsettled] at h1 h2 ⊢
      exact ⟨h1, h2, h3, by simp, h5, h6⟩
    | line60 =>
      simp only [tick, producer_tick, Option.some.injEq] at h
      subst h
      simp only [ProducerPc.uncounted_post, ProducerPc.unsettled] at h1 h2
      by_cases h0 : m.userdata.complete_semaphore = 0
      · simp only [threads_inv, vcos_semaphore_trywait, h0, lt_self_iff_false, if_false,
          ne_eq, Bool.false_eq_true, not_false_eq_true, if_true,
          ProducerPc.uncounted_post, ProducerPc.unsettled]
        refine ⟨by omega, by omega, by omega, fun _ => trivial, h5, h6⟩
      · have hp : 0 < m.userdata.complete_semaphore := Nat.pos_of_ne_zero h0
        simp only [threads_inv, vcos_semaphore_trywait, hp, if_true, ne_eq,
          not_true_eq_false, if_false, ProducerPc.uncounted_post, ProducerPc.unsettled]
        refine ⟨by omega, by omega, by omega, by simp, h5, h6⟩
    | line61 =>
      simp only [tick, producer_tick, Option.some.injEq] at h
      subst h
      have h0 := h4 rfl
      simp only [threads_inv, ProducerPc.uncounted_post, ProducerPc.unsettled,
        vcos_semaphore_post] at h1 h2 ⊢
      exact ⟨by omega, by omega, by omega, by simp, h5, h6⟩
    | line62 =>
      simp only [tick, producer_tick, Option.some.injEq] at h
      subst h
      simp only [threads_inv, ProducerPc.uncounted_post, ProducerPc.unsettled] at h1 h2 ⊢
      exact ⟨by omega, by omega, h3, by simp, h5, h6⟩
    | line65 =>
      simp only [tick, producer_tick, Option.some.injEq] at h
      subst h
      simp only [threads_inv, ProducerPc.uncounted_post, ProducerPc.unsettled] at h1 h2 ⊢
      exact ⟨h1, h2, h3, by simp, h5, h6⟩
    | line82 =>
      simp only [tick, producer_tick, Option.some.injEq] at h
      subst h
      simp only [threads_inv, ProducerPc.uncounted_post, ProducerPc.unsettled] at h1 h2 ⊢
      exact ⟨h1, h2, h3, by simp, h5, h6⟩
  | consumer =>
    cases cp with
    | line314 =>
      by_cases h0 : m.userdata.complete_semaphore = 0
      · simp [tick, consumer_tick, vcos_semaphore_wait, h0] at h
      · have hp : 0 < m.userdata.complete_semaphore := Nat.pos_of_ne_zero h0
        simp only [tick, consumer_tick, vcos_semaphore_wait, hp, if_true,
          Option.some.injEq] at h
        subst h
        simp only [threads_inv, ConsumerPc.uncounted_wake] at h1 h2 ⊢
        refine ⟨by omega, h2, by omega, ?_, h5, h6⟩
        intro hpp
        have := h4 hpp
        omega
    | line315 =>
      simp only [tick, consumer_tick, Option.some.injEq] at h
      subst h
      simp only [threads_inv, ConsumerPc.uncounted_wake] at h1 h2 ⊢
      exact ⟨by omega, h2, h3, h4, h5, h6⟩
    | line340 =>
      simp only [tick, consumer_tick, Option.some.injEq] at h
      subst h
      simp only [threads_inv, ConsumerPc.uncounted_wake] at h1 h2 ⊢
      exact ⟨h1, h2, h3, h4, h5, h6⟩
    | line344 res =>
      simp only [tick, consumer_tick, Option.some.injEq] at h
      subst h
      simp only [threads_inv, ConsumerPc.uncounted_wake, detect_and_log_userdata,
        detect_and_log_frame_count, detect_and_log_frame_post_count,
        detect_and_log_opencv_frames] at h1 h2 ⊢
      exact ⟨h1, h2, h3, h4, h5, h6⟩
    | line359 =>
      simp only [tick, consumer_tick, Option.some.injEq] at h
      subst h
      simp only [threads_inv, ConsumerPc.uncounted_wake] at h1 h2 ⊢
      exact ⟨h1, h2, h3, h4, h5, h6⟩

theorem threads_inv_ticks (detect : Mat → Bool × List (Point2f F)) (fmt : F → List Char)
    (es : List Tick) : ∀ (t t1 : Threads F), threads_inv t →
      ticks detect fmt t es = some t1 → threads_inv t1 := by
  induction es with
  | nil =>
    intro t t1 ht h
    simp only [ticks, Option.some.injEq] at h
    exact h ▸ ht
  | cons e es ih =>
    intro t t1 ht h
    simp only [ticks] at h
    cases hstep : tick detect fmt t e with
    | none => simp [hstep] at h
    | some t2 =>
      simp only [hstep] at h
      exact ih t2 t1 (threads_inv_tick detect fmt t t2 e ht hstep) h

end ThreadsInvariant

section ThreadsClaims

variable {F : Type}

/-- A callback whose statements run without the main thread in between is
`video_buffer_callback`: eight statements when the try-wait fails, six when it
succeeds. -/
theorem callback_statements (detect : Mat → Bool × List (Point2f F)) (fmt : F → List Char)
    (m : State) (cp : ConsumerPc F) (data : List Nat) (now : ℚ) :
    ticks detect fmt ⟨m, ProducerPc.idle, cp⟩
        (Tick.deliver data :: List.replicate
          (if m.userdata.complete_semaphore = 0 then 8 else 6) (Tick.producer now)) =
      some ⟨video_buffer_callback data now m, ProducerPc.idle, cp⟩ := by
  by_cases h0 : m.userdata.complete_semaphore = 0
  · simp [h0, List.replicate, ticks, tick, producer_tick, video_buffer_callback,
      vcos_semaphore_trywait, vcos_semaphore_post]
  · have hp : 0 < m.userdata.complete_semaphore := Nat.pos_of_ne_zero h0
    simp [h0, hp, List.replicate, ticks, tick, producer_tick, video_buffer_callback,
      vcos_semaphore_trywait]

/-- A loop iteration whose statements run without the callback in between is
`consumer_cycle`. -/
theorem loop_statements (detect : Mat → Bool × List (Point2f F)) (fmt : F → List Char)
    (m : State) (pp : ProducerPc) :
    ticks detect fmt ⟨m, pp, ConsumerPc.line314⟩ (List.replicate 5 Tick.consumer) =
      (consumer_cycle detect fmt m).map
        (fun w => (⟨w.next, pp, ConsumerPc.line314⟩ : Threads F)) := by
  by_cases h0 : m.userdata.complete_semaphore = 0
  · simp [h0, List.replicate, ticks, tick, consumer_tick, consumer_cycle,
      vcos_semaphore_wait]
  · have hp : 0 < m.userdata.complete_semaphore := Nat.pos_of_ne_zero h0
    simp [hp, List.replicate, ticks, tick, consumer_tick, consumer_cycle,
      vcos_semaphore_wait]

/-- Counterexample to C3 as stated: the first callback posts (line 61); before it counts
the post (line 62) the main thread returns from its wait and increments
`opencv_frames`, which is then 1 while `frame_post_count` is still 0. -/
theorem opencv_frames_exceeds_frame_post_count :
    (ticks sample_detect sample_fmt start
        [Tick.deliver [1], Tick.producer 0, Tick.producer 0, Tick.producer 0,
          Tick.producer 0, Tick.producer 0, Tick.consumer, Tick.consumer]).map
        (fun t => (t.mem.opencv_frames, t.mem.frame_post_count)) = some (1, 0) ∧
    ¬ ((1 : Nat) ≤ 0) :=
  ⟨rfl, by decide⟩

/-- Claim C3, amended: in every state reachable by interleaving the statements of the
callback and of the loop from the start, `frame_post_count ≤ frame_count` and
`opencv_frames ≤ frame_count`; the waits that have returned never outnumber the posts
made; `opencv_frames ≤ frame_post_count + 1`, and `opencv_frames ≤ frame_post_count`
whenever the callback does not stand between its post and `frame_post_count++`. -/
theorem counters_at_statement_granularity (detect : Mat → Bool × List (Point2f F))
    (fmt : F → List Char) (es : List Tick) (t : Threads F)
    (h : ticks detect fmt start es = some t) :
    t.mem.frame_post_count ≤ t.mem.frame_count ∧
    t.mem.opencv_frames ≤ t.mem.frame_count ∧
    t.mem.opencv_frames + t.consumer.uncounted_wake ≤
      t.mem.frame_post_count + t.producer.uncounted_post ∧
    t.mem.opencv_frames ≤ t.mem.frame_post_count + 1 ∧
    (t.producer ≠ ProducerPc.line62 → t.mem.opencv_frames ≤ t.mem.frame_post_count) := by
  obtain ⟨h1, h2, _, _, _, _⟩ := threads_inv_ticks detect fmt es start t threads_inv_start h
  have hu : t.producer.uncounted_post ≤ 1 := by
    cases t.producer <;> simp [ProducerPc.uncounted_post]
  refine ⟨by omega, by omega, by omega, by omega, ?_⟩
  intro hne
  have h0 : t.producer.uncounted_post = 0 := by
    cases hp : t.producer <;> simp_all [ProducerPc.uncounted_post]
  omega

/-- Witness for the amended C3: the state of the counterexample. -/
theorem counters_at_statement_granularity_witness :
    ticks sample_detect sample_fmt start
        [Tick.deliver [1], Tick.producer 0, Tick.producer 0, Tick.producer 0,
          Tick.producer 0, Tick.producer 0, Tick.consumer, Tick.consumer] =
      some ⟨⟨⟨640, 480, 640, 480, 640, 480, 0, ⟨480, 640, [1]⟩, 0⟩, 1, 0, 0, 1, 0, []⟩,
        ProducerPc.line62, ConsumerPc.line340⟩ ∧
    (1 : Nat) ≤ 0 + 1 :=
  ⟨rfl, (counters_at_statement_granularity sample_detect sample_fmt
    [Tick.deliver [1], Tick.producer 0, Tick.producer 0, Tick.producer 0,
      Tick.producer 0, Tick.producer 0, Tick.consumer, Tick.consumer]
    ⟨⟨⟨640, 480, 640, 480, 640, 480, 0, ⟨480, 640, [1]⟩, 0⟩, 1, 0, 0, 1, 0, []⟩,
      ProducerPc.line62, ConsumerPc.line340⟩ rfl).2.2.2.1⟩

end ThreadsClaims

section ThreadsHandoff

variable {F : Type}

/-- No statement changes the frame dimensions. -/
theorem dims_tick (detect : Mat → Bool × List (Point2f F)) (fmt : F → List Char)
    (t t1 : Threads F) (e : Tick) (h : tick detect fmt t e = some t1) :
    t1.mem.userdata.video_width = t.mem.userdata.video_width ∧
    t1.mem.userdata.video_height = t.mem.userdata.video_height := by
  obtain ⟨m, pp, cp⟩ := t
  cases e with
  | deliver data =>
    cases pp <;> simp only [tick, Option.some.injEq, reduceCtorEq] at h
    subst h
    exact ⟨rfl, rfl⟩
  | producer now =>
    cases pp <;> simp only [tick, producer_tick, Option.some.injEq, reduceCtorEq] at h <;>
      subst h <;> exact ⟨rfl, rfl⟩
  | consumer =>
    cases cp with
    | line314 =>
      by_cases h0 : m.userdata.complete_semaphore = 0
      · simp [tick, consumer_tick, vcos_semaphore_wait, h0] at h
      · have hp : 0 < m.userdata.complete_semaphore := Nat.pos_of_ne_zero h0
        simp only [tick, consumer_tick, vcos_semaphore_wait, hp, if_true,
          Option.some.injEq] at h
        subst h
        exact ⟨rfl, rfl⟩
    | line344 res =>
      simp only [tick, consumer_tick, Option.some.injEq] at h
      subst h
      simp [detect_and_log_userdata]
    | line315 =>
      simp only [tick, consumer_tick, Option.some.injEq] at h
      subst h
      exact ⟨rfl, rfl⟩
    | line340 =>
      simp only [tick, consumer_tick, Option.some.injEq] at h
      subst h
      exact ⟨rfl, rfl⟩
    | line359 =>
      simp only [tick, consumer_tick, Option.some.injEq] at h
      subst h
      exact ⟨rfl, rfl⟩

/-- A delivery makes its buffer the pending image; no other statement changes it. -/
theorem pending_image_tick (detect : Mat → Bool × List (Point2f F)) (fmt : F → List Char)
    (t t1 : Threads F) (e : Tick) (h : tick detect fmt t e = some t1) :
    pending_image t1 =
      match deliveries [e] with
      | [] => pending_image t
      | data :: _ =>
        Mat.clone_of t.mem.userdata.video_height t.mem.userdata.video_width data := by
  obtain ⟨m, pp, cp⟩ := t
  cases e with
  | deliver data =>
    cases pp <;> simp only [tick, Option.some.injEq, reduceCtorEq] at h
    subst h
    rfl
  | producer now =>
    cases pp with
    | idle => simp [tick, producer_tick] at h
    | line60 =>
      simp only [tick, producer_tick, Option.some.injEq] at h
      subst h
      by_cases h0 : m.userdata.complete_semaphore = 0
      · simp [pending_image, deliveries, vcos_semaphore_trywait, h0]
      · have hp : 0 < m.userdata.complete_semaphore := Nat.pos_of_ne_zero h0
        simp [pending_image, deliveries, vcos_semaphore_trywait, hp]
    | line61 =>
      simp only [tick, producer_tick, Option.some.injEq] at h
      subst h
      rfl
    | line50 data =>
      simp only [tick, producer_tick, Option.some.injEq] at h
      subst h
      rfl
    | line53 data =>
      simp only [tick, producer_tick, Option.some.injEq] at h
      subst h
      rfl
    | line56 data =>
      simp only [tick, producer_tick, Option.some.injEq] at h
      subst h
      rfl
    | line62 =>
      simp only [tick, producer_tick, Option.some.injEq] at h
      subst h
      rfl
    | line65 =>
      simp only [tick, producer_tick, Option.some.injEq] at h
      subst h
      rfl
    | line82 =>
      simp only [tick, producer_tick, Option.some.injEq] at h
      subst h
      rfl
  | consumer =>
    cases cp with
    | line314 =>
      by_cases h0 : m.userdata.complete_semaphore = 0
      · simp [tick, consumer_tick, vcos_semaphore_wait, h0] at h
      · have hp : 0 < m.userdata.complete_semaphore := Nat.pos_of_ne_zero h0
        simp only [tick, consumer_tick, vcos_semaphore_wait, hp, if_true,
          Option.some.injEq] at h
        subst h
        cases pp <;> rfl
    | line344 res =>
      simp only [tick, consumer_tick, Option.some.injEq] at h
      subst h
      cases pp <;> simp [pending_image, deliveries, detect_and_log_userdata]
    | line315 =>
      simp only [tick, consumer_tick, Option.some.injEq] at h
      subst h
      cases pp <;> rfl
    | line340 =>
      simp only [tick, consumer_tick, Option.some.injEq] at h
      subst h
      cases pp <;> rfl
    | line359 =>
      simp only [tick, consumer_tick, Option.some.injEq] at h
      subst h
      cases pp <;> rfl

/-- A delivery toggles the pending count; no other statement changes it, the return of a
wait apart. -/
theorem pending_semaphore_tick (detect : Mat → Bool × List (Point2f F))
    (fmt : F → List Char) (t t1 : Threads F) (e : Tick)
    (h : tick detect fmt t e = some t1) (hw : wait_of t e = 0) :
    pending_semaphore t1 =
      match deliveries [e] with
      | [] => pending_semaphore t
      | _ :: _ => toggled (pending_semaphore t) := by
  obtain ⟨m, pp, cp⟩ := t
  cases e with
  | deliver data =>
    cases pp <;> simp only [tick, Option.some.injEq, reduceCtorEq] at h
    subst h
    rfl
  | producer now =>
    cases pp with
    | idle => simp [tick, producer_tick] at h
    | line60 =>
      simp only [tick, producer_tick, Option.some.injEq] at h
      subst h
      by_cases h0 : m.userdata.complete_semaphore = 0
      · simp [pending_semaphore, deliveries, toggled, vcos_semaphore_trywait, h0]
      · have hp : 0 < m.userdata.complete_semaphore := Nat.pos_of_ne_zero h0
        simp [pending_semaphore, deliveries, toggled, vcos_semaphore_trywait, h0, hp]
    | line61 =>
      simp only [tick, producer_tick, Option.some.injEq] at h
      subst h
      rfl
    | line50 data =>
      simp only [tick, producer_tick, Option.some.injEq] at h
      subst h
      rfl
    | line53 data =>
      simp only [tick, producer_tick, Option.some.injEq] at h
      subst h
      rfl
    | line56 data =>
      simp only [tick, producer_tick, Option.some.injEq] at h
      subst h
      rfl
    | line62 =>
      simp only [tick, producer_tick, Option.some.injEq] at h
      subst h
      rfl
    | line65 =>
      simp only [tick, producer_tick, Option.some.injEq] at h
      subst h
      rfl
    | line82 =>
      simp only [tick, producer_tick, Option.some.injEq] at h
      subst h
      rfl
  | consumer =>
    cases cp with
    | line314 => simp [wait_of] at hw
    | line344 res =>
      simp only [tick, consumer_tick, Option.some.injEq] at h
      subst h
      cases pp <;> simp [pending_semaphore, deliveries, detect_and_log_userdata]
    | line315 =>
      simp only [tick, consumer_tick, Option.some.injEq] at h
      subst h
      cases pp <;> rfl
    | line340 =>
      simp only [tick, consumer_tick, Option.some.injEq] at h
      subst h
      cases pp <;> rfl
    | line359 =>
      simp only [tick, consumer_tick, Option.some.injEq] at h
      subst h
      cases pp <;> rfl

theorem deliveries_cons (e : Tick) (es : List Tick) :
    deliveries (e :: es) = deliveries [e] ++ deliveries es := by
  cases e <;> simp [deliveries]

theorem dims_ticks (detect : Mat → Bool × List (Point2f F)) (fmt : F → List Char)
    (es : List Tick) : ∀ (t t1 : Threads F), ticks detect fmt t es = some t1 →
      t1.mem.userdata.video_width = t.mem.userdata.video_width ∧
      t1.mem.userdata.video_height = t.mem.userdata.video_height := by
  induction es with
  | nil =>
    intro t t1 h
    simp only [ticks, Option.some.injEq] at h
    subst h
    exact ⟨rfl, rfl⟩
  | cons e es ih =>
    intro t t1 h
    simp only [ticks] at h
    cases hstep : tick detect fmt t e with
    | none => simp [hstep] at h
    | some t2 =>
      simp only [hstep] at h
      obtain ⟨h1, h2⟩ := ih t2 t1 h
      obtain ⟨h3, h4⟩ := dims_tick detect fmt t t2 e hstep
      exact ⟨h1.trans h3, h2.trans h4⟩

/-- After a schedule the pending image is the snapshot of the last buffer delivered. -/
theorem pending_image_ticks (detect : Mat → Bool × List (Point2f F)) (fmt : F → List Char)
    (es : List Tick) : ∀ (t t1 : Threads F), ticks detect fmt t es = some t1 →
      pending_image t1 =
        match (deliveries es).getLast? with
        | none => pending_image t
        | some data =>
          Mat.clone_of t.mem.userdata.video_height t.mem.userdata.video_width data := by
  induction es with
  | nil =>
    intro t t1 h
    simp only [ticks, Option.some.injEq] at h
    subst h
    rfl
  | cons e es ih =>
    intro t t1 h
    simp only [ticks] at h
    cases hstep : tick detect fmt t e with
    | none => simp [hstep] at h
    | some t2 =>
      simp only [hstep] at h
      have h2 := ih t2 t1 h
      have h1 := pending_image_tick detect fmt t t2 e hstep
      obtain ⟨hw, hh⟩ := dims_tick detect fmt t t2 e hstep
      rw [hw, hh] at h2
      rw [deliveries_cons]
      cases hd : deliveries es with
      | nil =>
        rw [hd] at h2
        rw [h2, h1]
        cases e <;> simp [deliveries]
      | cons d ds =>
        rw [hd] at h2
        have hne : d :: ds ≠ [] := List.cons_ne_nil _ _
        rw [h2, List.getLast?_append_of_ne_nil _ hne, List.getLast?_eq_getLast _ hne]

/-- After a schedule in which no wait returns, the pending count has been toggled once
per delivery. -/
theorem pending_semaphore_ticks (detect : Mat → Bool × List (Point2f F))
    (fmt : F → List Char) (es : List Tick) : ∀ (t t1 : Threads F),
      ticks detect fmt t es = some t1 → wakes detect fmt t es = 0 →
      pending_semaphore t1 = toggled^[(deliveries es).length] (pending_semaphore t) := by
  induction es with
  | nil =>
    intro t t1 h _
    simp only [ticks, Option.some.injEq] at h
    subst h
    rfl
  | cons e es ih =>
    intro t t1 h hw
    simp only [ticks] at h
    cases hstep : tick detect fmt t e with
    | none => simp [hstep] at h
    | some t2 =>
      simp only [hstep] at h
      simp only [wakes, hstep, Nat.add_eq_zero] at hw
      have h2 := ih t2 t1 h hw.2
      have h1 := pending_semaphore_tick detect fmt t t2 e hstep hw.1
      rw [h2, h1, deliveries_cons]
      cases e <;> simp [deliveries, Function.iterate_succ_apply]

/-- Whatever the detector is handed along a schedule is the image stored at its
beginning or a snapshot stored during it. -/
theorem handed_is_fresh (detect : Mat → Bool × List (Point2f F)) (fmt : F → List Char)
    (es : List Tick) : ∀ (t : Threads F) (img : Mat), img ∈ handed detect fmt t es →
      img = t.mem.userdata.image ∨ img ∈ stored detect fmt t es := by
  induction es with
  | nil => intro t img h; simp [handed] at h
  | cons e es ih =>
    intro t img h
    cases hstep : tick detect fmt t e with
    | none => simp [handed, hstep] at h
    | some t2 =>
      simp only [handed, hstep, List.mem_append] at h
      simp only [stored, hstep, List.mem_append]
      rcases h with h | h
      · left
        cases e with
        | consumer =>
          cases hc : t.consumer <;> simp [read_by_detector, hc] at h
          exact h
        | deliver data => simp [read_by_detector] at h
        | producer now => simp [read_by_detector] at h
      · rcases ih t2 img h with h2 | h2
        · obtain ⟨m, pp, cp⟩ := t
          cases e with
          | deliver data =>
            cases pp <;> simp only [tick, Option.some.injEq, reduceCtorEq] at hstep
            subst hstep
            exact Or.inl h2
          | consumer =>
            left
            rw [h2]
            cases cp with
            | line314 =>
              by_cases h0 : m.userdata.complete_semaphore = 0
              · simp [tick, consumer_tick, vcos_semaphore_wait, h0] at hstep
              · have hp : 0 < m.userdata.complete_semaphore := Nat.pos_of_ne_zero h0
                simp only [tick, consumer_tick, vcos_semaphore_wait, hp, if_true,
                  Option.some.injEq] at hstep
                subst hstep
                rfl
            | line344 res =>
              simp only [tick, consumer_tick, Option.some.injEq] at hstep
              subst hstep
              simp [detect_and_log_userdata]
            | line315 =>
              simp only [tick, consumer_tick, Option.some.injEq] at hstep
              subst hstep
              rfl
            | line340 =>
              simp only [tick, consumer_tick, Option.some.injEq] at hstep
              subst hstep
              rfl
            | line359 =>
              simp only [tick, consumer_tick, Option.some.injEq] at hstep
              subst hstep
              rfl
          | producer now =>
            cases pp with
            | idle => simp [tick, producer_tick] at hstep
            | line56 data =>
              simp only [tick, producer_tick, Option.some.injEq] at hstep
              subst hstep
              right; left
              simp [stored_by_callback, h2]
            | line50 data =>
              simp only [tick, producer_tick, Option.some.injEq] at hstep
              subst hstep
              exact Or.inl h2
            | line53 data =>
              simp only [tick, producer_tick, Option.some.injEq] at hstep
              subst hstep
              exact Or.inl h2
            | line60 =>
              simp only [tick, producer_tick, Option.some.injEq] at hstep
              subst hstep
              exact Or.inl h2
            | line61 =>
              simp only [tick, producer_tick, Option.some.injEq] at hstep
              subst hstep
              exact Or.inl h2
            | line62 =>
              simp only [tick, producer_tick, Option.some.injEq] at hstep
              subst hstep
              exact Or.inl h2
            | line65 =>
              simp only [tick, producer_tick, Option.some.injEq] at hstep
              subst hstep
              exact Or.inl h2
            | line82 =>
              simp only [tick, producer_tick, Option.some.injEq] at hstep
              subst hstep
              exact Or.inl h2
        · exact Or.inr (Or.inr h2)

/-- With no callback running and the count at 0, no wait returns before a delivery. -/
theorem no_wake_without_delivery (detect : Mat → Bool × List (Point2f F))
    (fmt : F → List Char) (es : List Tick) : ∀ (t t1 : Threads F),
      t.producer = ProducerPc.idle → t.mem.userdata.complete_semaphore = 0 →
      ticks detect fmt t es = some t1 → deliveries es = [] →
      wakes detect fmt t es = 0 := by
  induction es with
  | nil => intro t t1 _ _ _ _; rfl
  | cons e es ih =>
    intro t t1 hidle hsem h hdel
    simp only [ticks] at h
    cases hstep : tick detect fmt t e with
    | none => simp [wakes, hstep]
    | some t2 =>
      simp only [hstep] at h
      simp only [wakes, hstep]
      obtain ⟨m, pp, cp⟩ := t
      simp only at hidle hsem
      subst hidle
      cases e with
      | deliver data => simp [deliveries] at hdel
      | producer now => simp [tick, producer_tick] at hstep
      | consumer =>
        have hdel2 : deliveries es = [] := by simpa [deliveries] using hdel
        cases cp with
        | line314 => simp [tick, consumer_tick, vcos_semaphore_wait, hsem] at hstep
        | line344 res =>
          simp only [tick, consumer_tick, Option.some.injEq] at hstep
          subst hstep
          have := ih _ t1 rfl (by simpa [detect_and_log_userdata] using hsem) h hdel2
          simpa [wait_of] using this
        | line315 =>
          simp only [tick, consumer_tick, Option.some.injEq] at hstep
          subst hstep
          have := ih _ t1 rfl hsem h hdel2
          simpa [wait_of] using this
        | line340 =>
          simp only [tick, consumer_tick, Option.some.injEq] at hstep
          subst hstep
          have := ih _ t1 rfl hsem h hdel2
          simpa [wait_of] using this
        | line359 =>
          simp only [tick, consumer_tick, Option.some.injEq] at hstep
          subst hstep
          have := ih _ t1 rfl hsem h hdel2
          simpa [wait_of] using this

/-- With the count at 0, the image of any callback in progress not yet stored and the
main thread on its way to the wait, whatever the detector is handed next was stored
later: the image now in `userdata.image` is never handed over. -/
theorem unsignalled_image_is_skipped (detect : Mat → Bool × List (Point2f F))
    (fmt : F → List Char) (es : List Tick) : ∀ (t : Threads F),
      t.producer.before_store = true → t.consumer.before_wait = true →
      t.mem.userdata.complete_semaphore = 0 →
      ∀ img ∈ handed detect fmt t es, img ∈ stored detect fmt t es := by
  induction es with
  | nil => intro t _ _ _ img h; simp [handed] at h
  | cons e es ih =>
    intro t hp hc hsem img h
    cases hstep : tick detect fmt t e with
    | none => simp [handed, hstep] at h
    | some t2 =>
      simp only [handed, hstep, List.mem_append] at h
      simp only [stored, hstep, List.mem_append]
      obtain ⟨m, pp, cp⟩ := t
      simp only at hp hc hsem
      have hread : read_by_detector (⟨m, pp, cp⟩ : Threads F) e = [] := by
        cases e with
        | consumer => cases cp <;> simp_all [read_by_detector, ConsumerPc.before_wait]
        | deliver data => rfl
        | producer now => rfl
      rw [hread] at h
      simp only [List.not_mem_nil, false_or] at h
      cases e with
      | deliver data =>
        cases pp <;> simp only [tick, Option.some.injEq, reduceCtorEq] at hstep
        subst hstep
        refine Or.inr (ih _ ?_ ?_ ?_ img h)
        · rfl
        · exact hc
        · exact hsem
      | producer now =>
        cases pp with
        | idle => simp [tick, producer_tick] at hstep
        | line50 data =>
          simp only [tick, producer_tick, Option.some.injEq] at hstep
          subst hstep
          refine Or.inr (ih _ ?_ ?_ ?_ img h)
          · rfl
          · exact hc
          · exact hsem
        | line53 data =>
          simp only [tick, producer_tick, Option.some.injEq] at hstep
          subst hstep
          refine Or.inr (ih _ ?_ ?_ ?_ img h)
          · rfl
          · exact hc
          · exact hsem
        | line56 data =>
          simp only [tick, producer_tick, Option.some.injEq] at hstep
          subst hstep
          rcases handed_is_fresh detect fmt es _ img h with h2 | h2
          · left
            simp [stored_by_callback, h2]
          · exact Or.inr h2
        | line60 => simp [ProducerPc.before_store] at hp
        | line61 => simp [ProducerPc.before_store] at hp
        | line62 => simp [ProducerPc.before_store] at hp
        | line65 => simp [ProducerPc.before_store] at hp
        | line82 => simp [ProducerPc.before_store] at hp
      | consumer =>
        cases cp with
        | line314 => simp [tick, consumer_tick, vcos_semaphore_wait, hsem] at hstep
        | line344 res =>
          simp only [tick, consumer_tick, Option.some.injEq] at hstep
          subst hstep
          refine Or.inr (ih _ ?_ ?_ ?_ img h)
          · exact hp
          · rfl
          · simpa [detect_and_log_userdata] using hsem
        | line359 =>
          simp only [tick, consumer_tick, Option.some.injEq] at hstep
          subst hstep
          refine Or.inr (ih _ ?_ ?_ ?_ img h)
          · exact hp
          · rfl
          · exact hsem
        | line315 => simp [ConsumerPc.before_wait] at hc
        | line340 => simp [ConsumerPc.before_wait] at hc

/-- Counterexample to C2 as stated. After start-up two callbacks publish snapshots 1 and
2 and no wait returns between them; the wait issued right after them is not enabled,
and once a third callback has run the detector is handed snapshot 3, not 2. And when
the count is 1 before callbacks 1 and 2 (after a callback 5), the wait returns after
them, callback 3 stores its image before line 341 is reached, and the detector is
again handed snapshot 3, not 2. -/
theorem next_wait_misses_second_snapshot :
    ticks sample_detect sample_fmt start
        ([Tick.deliver [1]] ++ List.replicate 8 (Tick.producer 0) ++
          [Tick.deliver [2]] ++ List.replicate 6 (Tick.producer 1) ++
          [Tick.consumer]) = none ∧
    handed sample_detect sample_fmt start
        ([Tick.deliver [1]] ++ List.replicate 8 (Tick.producer 0) ++
          [Tick.deliver [2]] ++ List.replicate 6 (Tick.producer 1) ++
          [Tick.deliver [3]] ++ List.replicate 8 (Tick.producer 2) ++
          [Tick.consumer, Tick.consumer, Tick.consumer]) = [Mat.clone_of 480 640 [3]] ∧
    handed sample_detect sample_fmt start
        ([Tick.deliver [5]] ++ List.replicate 8 (Tick.producer 0) ++
          [Tick.deliver [1]] ++ List.replicate 6 (Tick.producer 1) ++
          [Tick.deliver [2]] ++ List.replicate 8 (Tick.producer 2) ++
          [Tick.consumer, Tick.consumer] ++
          [Tick.deliver [3]] ++ List.replicate 3 (Tick.producer 3) ++
          [Tick.consumer]) = [Mat.clone_of 480 640 [3]] ∧
    Mat.clone_of 480 640 [3] ≠ Mat.clone_of 480 640 [2] := by
  refine ⟨rfl, rfl, rfl, by decide⟩

/-- Claim C2, amended, with callback and loop interleaved statement by statement. From a
reachable state with no callback in progress let two callbacks publishing `a` then
`b` run to completion while no wait returns. Then `b` is the stored image and the
semaphore count, 0 or 1, is what it was before them. If it was 1 the wait is
enabled. If it was 0 the wait is not enabled, no wait returns before a further
delivery, and if the loop stands at its wait the snapshot `b` is never handed to the
detector: whatever is handed to it later was stored by a later callback. In all
cases whatever the detector is handed later is `b` or a snapshot stored later. -/
theorem handoff_at_statement_granularity (detect : Mat → Bool × List (Point2f F))
    (fmt : F → List Char) (pre mid : List Tick) (t t2 : Threads F) (a b : List Nat)
    (hpre : ticks detect fmt start pre = some t) (hidle : t.producer = ProducerPc.idle)
    (hmid : ticks detect fmt t mid = some t2) (hidle2 : t2.producer = ProducerPc.idle)
    (hab : deliveries mid = [a, b]) (hnowake : wakes detect fmt t mid = 0) :
    t2.mem.userdata.image = Mat.clone_of 480 640 b ∧
    t2.mem.userdata.complete_semaphore = t.mem.userdata.complete_semaphore ∧
    (t.mem.userdata.complete_semaphore = 0 ∨ t.mem.userdata.complete_semaphore = 1) ∧
    (t.mem.userdata.complete_semaphore = 1 →
      vcos_semaphore_wait t2.mem.userdata.complete_semaphore = some 0) ∧
    (t.mem.userdata.complete_semaphore = 0 →
      vcos_semaphore_wait t2.mem.userdata.complete_semaphore = none ∧
      (∀ (post : List Tick) (t3 : Threads F), ticks detect fmt t2 post = some t3 →
        deliveries post = [] → wakes detect fmt t2 post = 0) ∧
      (t2.consumer = ConsumerPc.line314 → ∀ (post : List Tick) (img : Mat),
        img ∈ handed detect fmt t2 post → img ∈ stored detect fmt t2 post)) ∧
    (∀ (post : List Tick) (img : Mat), img ∈ handed detect fmt t2 post →
      img = Mat.clone_of 480 640 b ∨ img ∈ stored detect fmt t2 post) := by
  obtain ⟨_, _, hle, _, hw, hh⟩ :=
    threads_inv_ticks detect fmt pre start t threads_inv_start hpre
  have himg : t2.mem.userdata.image = Mat.clone_of 480 640 b := by
    have h1 := pending_image_ticks detect fmt mid t t2 hmid
    rw [hab, hw, hh] at h1
    have h2 : pending_image t2 = t2.mem.userdata.image := by
      unfold pending_image; rw [hidle2]
    rw [← h2, h1]
    rfl
  have hsem : t2.mem.userdata.complete_semaphore = t.mem.userdata.complete_semaphore := by
    have h1 := pending_semaphore_ticks detect fmt mid t t2 hmid hnowake
    have h2 : pending_semaphore t2 = t2.mem.userdata.complete_semaphore := by
      unfold pending_semaphore; rw [hidle2]
    have h3 : pending_semaphore t = t.mem.userdata.complete_semaphore := by
      unfold pending_semaphore; rw [hidle]
    rw [h2, h3, hab] at h1
    rw [h1]
    have hcases : t.mem.userdata.complete_semaphore = 0 ∨
        t.mem.userdata.complete_semaphore = 1 := by omega
    rcases hcases with h0 | h0 <;> rw [h0] <;> rfl
  refine ⟨himg, hsem, by omega, ?_, ?_, ?_⟩
  · intro h1
    rw [hsem, h1]
    rfl
  · intro h0
    refine ⟨by rw [hsem, h0]; rfl, ?_, ?_⟩
    · intro post t3 hpost hdel
      exact no_wake_without_delivery detect fmt post t2 t3 hidle2 (hsem.trans h0) hpost hdel
    · intro hc post img himg2
      exact unsignalled_image_is_skipped detect fmt post t2 (by rw [hidle2]; rfl)
        (by rw [hc]; rfl) (hsem.trans h0) img himg2
  · intro post img h
    rw [← himg]
    exact handed_is_fresh detect fmt post t2 img h

/-- Witness for the amended C2: the first two callbacks after start-up. -/
theorem handoff_at_statement_granularity_witness :
    ticks sample_detect sample_fmt start
        ([Tick.deliver [1]] ++ List.replicate 8 (Tick.producer 0) ++
          [Tick.deliver [2]] ++ List.replicate 6 (Tick.producer 1)) =
      some ⟨⟨⟨640, 480, 640, 480, 640, 480, 0, ⟨480, 640, [2]⟩, 0⟩, 2, 1, 0, 0, 0, []⟩,
        ProducerPc.idle, ConsumerPc.line314⟩ ∧
    (⟨480, 640, [2]⟩ : Mat) = Mat.clone_of 480 640 [2] ∧
    vcos_semaphore_wait 0 = none :=
  ⟨rfl,
    (handoff_at_statement_granularity sample_detect sample_fmt []
      ([Tick.deliver [1]] ++ List.replicate 8 (Tick.producer 0) ++
        [Tick.deliver [2]] ++ List.replicate 6 (Tick.producer 1))
      start
      ⟨⟨⟨640, 480, 640, 480, 640, 480, 0, ⟨480, 640, [2]⟩, 0⟩, 2, 1, 0, 0, 0, []⟩,
        ProducerPc.idle, ConsumerPc.line314⟩
      [1] [2] rfl rfl rfl rfl rfl rfl).1,
    ((handoff_at_statement_granularity sample_detect sample_fmt []
      ([Tick.deliver [1]] ++ List.replicate 8 (Tick.producer 0) ++
        [Tick.deliver [2]] ++ List.replicate 6 (Tick.producer 1))
      start
      ⟨⟨⟨640, 480, 640, 480, 640, 480, 0, ⟨480, 640, [2]⟩, 0⟩, 2, 1, 0, 0, 0, []⟩,
        ProducerPc.idle, ConsumerPc.line314⟩
      [1] [2] rfl rfl rfl rfl rfl rfl).2.2.2.2.1 rfl).1⟩

end ThreadsHandoff

end CamCal
